import Mathlib

/-!
# SWHI risk classification and score display

A shallow embedding of the score-selection, risk-classification and
default-coercion logic of the two SWHI front ends
(`Vodafone/frontend/src/pages/SWHI` and `SWHI/frontend/src`).

JavaScript values that arrive through `response.json()` are modelled by
`JSValue`; JavaScript Numbers by `JSNum`.  A finite double is held as the
rational it denotes, so the order comparisons of the source are exact.
-/

namespace Vois

/-! ## JavaScript numbers and values -/

/-- The values of a JavaScript Number: a finite double (held as the rational it
denotes; the sign of zero is not tracked), the two infinities and NaN. -/
inductive JSNum where
  | fin (q : ℚ)
  | posInf
  | negInf
  | nan
  deriving DecidableEq

namespace JSNum

/-- The JavaScript comparison `a >= b` on two Numbers (false as soon as one
side is NaN). -/
def ge : JSNum → JSNum → Bool
  | nan, _ => false
  | _, nan => false
  | posInf, _ => true
  | _, negInf => true
  | negInf, _ => false
  | _, posInf => false
  | fin a, fin b => decide (b ≤ a)

/-- The JavaScript comparison `a <= b` on two Numbers. -/
def le (a b : JSNum) : Bool := ge b a

/-- ToBoolean on a Number: `0` and NaN are falsy, everything else truthy. -/
def truthy : JSNum → Bool
  | fin q => decide (q ≠ 0)
  | posInf => true
  | negInf => true
  | nan => false

/-- The function `Math.round`: the integer closest to the argument, a tie going
to the larger one; infinities and NaN are returned unchanged. -/
def round : JSNum → JSNum
  | fin q => fin (⌊q + 1 / 2⌋ : ℤ)
  | posInf => posInf
  | negInf => negInf
  | nan => nan

end JSNum

/-- A JavaScript value as produced by `JSON.parse`, together with `undefined`
(the value of a property that is not there).  An object is the list of its own
properties; the first binding of a key is the one that is read. -/
inductive JSValue where
  | undefined
  | null
  | bool (b : Bool)
  | num (n : JSNum)
  | str (s : String)
  | arr (items : List JSValue)
  | obj (props : List (String × JSValue))

namespace JSValue

/-- ToBoolean: `undefined`, `null`, `false`, `0`, NaN and the empty string are
falsy; every other value (every array and object included) is truthy. -/
def truthy : JSValue → Bool
  | undefined => false
  | null => false
  | bool b => b
  | num n => n.truthy
  | str s => decide (s ≠ "")
  | arr _ => true
  | obj _ => true

/-- The operator `a || b`: the left operand when it is truthy, else the right. -/
def or (a b : JSValue) : JSValue := if a.truthy then a else b

/-- Own-property lookup in a property list; a key that is not there reads as
`undefined`. -/
def lookup : List (String × JSValue) → String → JSValue
  | [], _ => undefined
  | (k, v) :: rest, key => if k = key then v else lookup rest key

/-- The length of a string in UTF-16 code units, which is what `.length`
reports. -/
def utf16Length (s : String) : Nat :=
  s.toList.foldl (fun n c => n + (if c.val.toNat < 65536 then 1 else 2)) 0

/-- Property read `v.key` (or `v[key]`).  Reading from `undefined` or `null`
throws a TypeError, rendered as `none`.  Own data properties and `length` are
modelled; array indices and prototype members are not (the modelled code reads
none of them). -/
def getProp : JSValue → String → Option JSValue
  | undefined, _ => none
  | null, _ => none
  | bool _, _ => some undefined
  | num _, _ => some undefined
  | str s, key => if key = "length" then some (num (.fin (utf16Length s))) else some undefined
  | arr items, key => if key = "length" then some (num (.fin items.length)) else some undefined
  | obj props, key => some (lookup props key)

/-- ToNumber on the values whose conversion needs no string parsing:
`undefined` is NaN, `null` is 0, booleans are 0 and 1.  Strings, arrays and
objects go through the runtime's string-to-number grammar, which is outside
this model (`none`). -/
def toNumber : JSValue → Option JSNum
  | undefined => some .nan
  | null => some (.fin 0)
  | bool b => some (.fin (if b then 1 else 0))
  | num n => some n
  | str _ => none
  | arr _ => none
  | obj _ => none

end JSValue

/-! ## Risk tiers -/

/-- The four risk labels, the string literals `'HIGH'`, `'MEDIUM'`, `'LOW'` and
`'MINIMAL'` of the source. -/
inductive Level where
  | MINIMAL
  | LOW
  | MEDIUM
  | HIGH
  deriving DecidableEq, Repr

/-- Position of a label in the order MINIMAL < LOW < MEDIUM < HIGH. -/
def Level.rank : Level → Nat
  | .MINIMAL => 0
  | .LOW => 1
  | .MEDIUM => 2
  | .HIGH => 3

/-- The object returned by `getRiskLevel`: label, text colour class and
background class. -/
structure RiskInfo where
  level : Level
  color : String
  bg : String
  deriving DecidableEq

namespace SWHIPage

/-- The function `getRiskLevel` of `SWHIPage.jsx` (lines 75-80), on a Number. -/
def getRiskLevel (score : JSNum) : RiskInfo :=
  if score.ge (.fin 80) then { level := .HIGH, color := "text-red-400", bg := "bg-red-900/20" }
  else if score.ge (.fin 50) then { level := .MEDIUM, color := "text-yellow-400", bg := "bg-yellow-900/20" }
  else if score.ge (.fin 20) then { level := .LOW, color := "text-blue-400", bg := "bg-blue-900/20" }
  else { level := .MINIMAL, color := "text-green-400", bg := "bg-green-900/20" }

end SWHIPage

namespace App

/-- The function `getRiskLevel` of the stand-alone `SWHI/frontend/src/App.js`
(lines 75-80), on a Number. -/
def getRiskLevel (score : JSNum) : RiskInfo :=
  if score.ge (.fin 80) then { level := .HIGH, color := "text-red-400", bg := "bg-red-900/20" }
  else if score.ge (.fin 50) then { level := .MEDIUM, color := "text-yellow-400", bg := "bg-yellow-900/20" }
  else if score.ge (.fin 20) then { level := .LOW, color := "text-blue-400", bg := "bg-blue-900/20" }
  else { level := .MINIMAL, color := "text-green-400", bg := "bg-green-900/20" }

end App

/-! ## The score card (`SuspiciousScore.js`) -/

namespace SuspiciousScore

/-- The function `getScoreColor` of `SuspiciousScore.js` (lines 6-11). -/
def getScoreColor (score : JSNum) : String :=
  if score.ge (.fin 80) then "text-red-400"
  else if score.ge (.fin 50) then "text-yellow-400"
  else if score.ge (.fin 20) then "text-blue-400"
  else "text-green-400"

/-- The function `getScoreBg` of `SuspiciousScore.js` (lines 13-18). -/
def getScoreBg (score : JSNum) : String :=
  if score.ge (.fin 80) then "bg-red-900/20"
  else if score.ge (.fin 50) then "bg-yellow-900/20"
  else if score.ge (.fin 20) then "bg-blue-900/20"
  else "bg-green-900/20"

/-- The number printed in the badge, `Math.round(score)` (line 51), followed in
the page by the text `/100`. -/
def badgeNumber (score : JSValue) : Option JSNum :=
  score.toNumber.map JSNum.round

/-- The value interpolated into the width of the score bar (line 61): the score
itself, followed by a percent sign. -/
def barWidthPercent (score : JSValue) : JSValue := score

/-- The colour class of the score bar (lines 63-67). -/
def barColor (score : JSNum) : String :=
  if score.ge (.fin 80) then "bg-red-400"
  else if score.ge (.fin 50) then "bg-yellow-400"
  else if score.ge (.fin 20) then "bg-blue-400"
  else "bg-green-400"

end SuspiciousScore

/-! ## The page (`SWHIPage.jsx`, and the same lines of `App.js`) -/

/-- The two props handed to the score card. -/
structure ScoreProps where
  score : JSValue
  riskLevel : RiskInfo

/-- The state held by the page component (its six `useState` cells). -/
structure SWHIState where
  domain : String
  analysis : JSValue
  loading : Bool
  error : JSValue
  history : JSValue
  showHistory : Bool

namespace SWHIPage

/-- The expression `analysis.combined_score || analysis.suspicious_score || 0`
(lines 217 and 218), with the short-circuit order of the source. -/
def scoreExpr (analysis : JSValue) : Option JSValue :=
  match analysis.getProp "combined_score" with
  | none => none
  | some c =>
    if c.truthy then some c
    else
      match analysis.getProp "suspicious_score" with
      | none => none
      | some s => some (s.or (.num (.fin 0)))

/-- The props of the score card (lines 216-219): the selected score and
`getRiskLevel` of the same expression. -/
def scoreProps (analysis : JSValue) : Option ScoreProps :=
  match scoreExpr analysis with
  | none => none
  | some score =>
    match score.toNumber with
    | none => none
    | some n => some { score := score, riskLevel := getRiskLevel n }

/-- The score card as rendered from a page state: present only under the guard
`analysis && !loading` (line 189). -/
def renderScore (st : SWHIState) : Option ScoreProps :=
  if st.analysis.truthy && !st.loading then scoreProps st.analysis else none

/-- The guard of the ML card (line 222):
`analysis.ml_prediction && analysis.ml_prediction.ml_available`. -/
def showsMLCard (analysis : JSValue) : Option Bool :=
  match analysis.getProp "ml_prediction" with
  | none => none
  | some ml =>
    if ml.truthy then (ml.getProp "ml_available").map JSValue.truthy
    else some false

/-- The text of the domain-status alert (lines 197-213): nothing when
`domain_status` is the string `'active'`, else one of two messages. -/
def domainStatusAlert (analysis : JSValue) : Option (Option String) :=
  match analysis.getProp "domain_status" with
  | none => none
  | some (.str "active") => some none
  | some (.str "unregistered") =>
      some (some "This domain is not currently registered. This is highly suspicious for domains used in phishing templates.")
  | some _ =>
      some (some "The domain is registered but has no active hosting records. It may be parked or already taken down.")

end SWHIPage

namespace App

/-- The score expression of `App.js` (lines 203 and 204), the same as the
page's. -/
def scoreExpr (analysis : JSValue) : Option JSValue :=
  match analysis.getProp "combined_score" with
  | none => none
  | some c =>
    if c.truthy then some c
    else
      match analysis.getProp "suspicious_score" with
      | none => none
      | some s => some (s.or (.num (.fin 0)))

end App

/-! ## History rows and the exported report -/

namespace HistoryPanel

/-- The function `getRiskColor` of `HistoryPanel.js` (lines 13-18). -/
def getRiskColor (score : JSNum) : String :=
  if score.ge (.fin 80) then "text-red-400"
  else if score.ge (.fin 50) then "text-yellow-400"
  else if score.ge (.fin 20) then "text-blue-400"
  else "text-green-400"

/-- The number printed for a history row, `Math.round(item.suspicious_score)`
(line 101). -/
def riskScoreNumber (item : JSValue) : Option JSNum :=
  match item.getProp "suspicious_score" with
  | none => none
  | some s => s.toNumber.map JSNum.round

end HistoryPanel

namespace PDFExport

/-- The object returned by the report's own `getRiskLevel`. -/
structure RiskBadge where
  level : Level
  color : String
  deriving DecidableEq

/-- The function `getRiskLevel` of `PDFExport.js` (lines 48-53). -/
def getRiskLevel (score : JSNum) : RiskBadge :=
  if score.ge (.fin 80) then { level := .HIGH, color := "#ff4444" }
  else if score.ge (.fin 50) then { level := .MEDIUM, color := "#ffaa00" }
  else if score.ge (.fin 20) then { level := .LOW, color := "#4488ff" }
  else { level := .MINIMAL, color := "#44ff44" }

/-- The field `suspiciousScore` of the report data (line 12):
`analysis.suspicious_score || 0`. -/
def suspiciousScore (analysis : JSValue) : Option JSValue :=
  (analysis.getProp "suspicious_score").map (fun s => s.or (.num (.fin 0)))

/-- The number printed in the report, `Math.round(data.suspiciousScore)`
(line 92). -/
def scoreNumber (analysis : JSValue) : Option JSNum :=
  match suspiciousScore analysis with
  | none => none
  | some s => s.toNumber.map JSNum.round

end PDFExport

/-! ## Defaults for missing sections of an analysis -/

/-- One entry of the table `recordTypes` of `DNSAnalysis.js`. -/
structure RecordType where
  key : String
  name : String
  description : String

namespace DNSAnalysis

/-- The binding `dnsRecords = analysis.dns_records || {}` (line 9). -/
def dnsRecords (analysis : JSValue) : Option JSValue :=
  (analysis.getProp "dns_records").map (fun d => d.or (.obj []))

/-- The table `recordTypes` (lines 11-18). -/
def recordTypes : List RecordType :=
  [ { key := "A", name := "A Records", description := "IPv4 addresses" },
    { key := "AAAA", name := "AAAA Records", description := "IPv6 addresses" },
    { key := "MX", name := "MX Records", description := "Mail exchange servers" },
    { key := "NS", name := "NS Records", description := "Name servers" },
    { key := "TXT", name := "TXT Records", description := "Text records" },
    { key := "CNAME", name := "CNAME Records", description := "Canonical names" } ]

/-- The binding `records = dnsRecords[recordType.key] || []` (line 71). -/
def records (analysis : JSValue) (key : String) : Option JSValue :=
  match dnsRecords analysis with
  | none => none
  | some d => (d.getProp key).map (fun r => r.or (.arr []))

/-- The summary count `(dnsRecords[recordType.key] || []).length` (line 155). -/
def count (analysis : JSValue) (key : String) : Option JSValue :=
  match records analysis key with
  | none => none
  | some r => r.getProp "length"

/-- The six counts of the DNS summary, in table order (lines 154-162). -/
def summaryCounts (analysis : JSValue) : List (Option JSValue) :=
  recordTypes.map (fun rt => count analysis rt.key)

end DNSAnalysis

namespace HostingInfo

/-- The binding `cdnInfo = analysis.cdn_detection || {}` (line 9). -/
def cdnInfo (analysis : JSValue) : Option JSValue :=
  (analysis.getProp "cdn_detection").map (fun c => c.or (.obj []))

/-- The condition `cdnInfo.detected` as the page tests it (lines 131-137). -/
def cdnDetected (analysis : JSValue) : Option Bool :=
  match cdnInfo analysis with
  | none => none
  | some c => (c.getProp "detected").map JSValue.truthy

/-- The text under "CDN Detected" (line 131). -/
def cdnDetectedText (analysis : JSValue) : Option String :=
  (cdnDetected analysis).map (fun d => if d then "Yes" else "No")

/-- The status shown beside it (lines 135-137): `getStatusText` of `'warning'`
or `'safe'`. -/
def cdnStatusText (analysis : JSValue) : Option String :=
  (cdnDetected analysis).map (fun d => if d then "Warning" else "Safe")

end HostingInfo

/-- The object returned by `getValidityStatus` (the icon is named, not held). -/
structure ValidityStatus where
  status : String
  icon : String
  color : String
  bg : String
  deriving DecidableEq

namespace SSLAnalysis

/-- The binding `sslInfo = analysis.ssl_info || {}` (line 7). -/
def sslInfo (analysis : JSValue) : Option JSValue :=
  (analysis.getProp "ssl_info").map (fun c => c.or (.obj []))

/-- The function `getValidityStatus` (lines 19-27), on the bound `sslInfo`:
strict equality with `true`, then with `false`, else unknown. -/
def getValidityStatus (sslInfo : JSValue) : Option ValidityStatus :=
  match sslInfo.getProp "valid" with
  | none => none
  | some (.bool true) =>
      some { status := "valid", icon := "CheckCircle", color := "text-green-400", bg := "bg-green-900/20" }
  | some (.bool false) =>
      some { status := "invalid", icon := "XCircle", color := "text-red-400", bg := "bg-red-900/20" }
  | some _ =>
      some { status := "unknown", icon := "AlertTriangle", color := "text-yellow-400", bg := "bg-yellow-900/20" }

/-- The binding `validityStatus` (line 57) for an analysis. -/
def validityStatus (analysis : JSValue) : Option ValidityStatus :=
  match sslInfo analysis with
  | none => none
  | some info => getValidityStatus info

/-- The argument `sslInfo.not_after` handed to `getDaysUntilExpiry` (line 58). -/
def notAfter (analysis : JSValue) : Option JSValue :=
  match sslInfo analysis with
  | none => none
  | some info => info.getProp "not_after"

end SSLAnalysis

/-! ## The scoring engine behind the API

The analysis objects are computed by the service behind `/api/swhi/analyze`,
whose code is not part of the front-end sources.  Its aggregation rules are
taken from sections 3 and 4 of the specification. -/

/-- Modelled from the spec: the `domainStatus` enumeration of RawSignals
(section 3); the scorer that reads it is not in the front-end sources. -/
inductive DomainStatus where
  | active
  | registered_no_host
  | unregistered
  deriving DecidableEq

/-- Modelled from the spec: the optional `mlPrediction` of RawSignals (section
3), with the availability flag, the label, the confidence and the 0-100
`mlScore`; the classifier is not in the front-end sources. -/
structure MLPrediction where
  available : Bool
  label : String
  confidence : ℚ
  mlScore : ℚ

/-- Modelled from the spec: RawSignals (section 3), the input of the scoring
engine, which is not in the front-end sources.  The signal groups other than
the domain status are kept as received. -/
structure RawSignals where
  domainStatus : DomainStatus
  ipInfo : JSValue
  dnsRecords : JSValue
  sslInfo : JSValue
  cdnDetection : JSValue
  mlPrediction : Option MLPrediction

/-- Modelled from the spec: the domain-status scorer of section 4.2, missing
from the front-end sources: unregistered is fixed at 100, registered without
host at 60, active at 0. -/
def domainStatusScore (raw : RawSignals) : ℚ :=
  match raw.domainStatus with
  | .unregistered => 100
  | .registered_no_host => 60
  | .active => 0

/-- Modelled from the spec: the five category scores handed to the aggregator
of section 4.3, which is missing from the front-end sources. -/
structure CategoryScores where
  hosting : ℚ
  dns : ℚ
  ssl : ℚ
  cdn : ℚ
  domainStatus : ℚ

/-- Modelled from the spec: the fixed category weights of section 4.3
(hosting 0.25, dns 0.20, ssl 0.25, cdn 0.10, domainStatus 0.20), missing from
the front-end sources. -/
def categoryWeights : CategoryScores :=
  { hosting := 0.25, dns := 0.20, ssl := 0.25, cdn := 0.10, domainStatus := 0.20 }

/-- Modelled from the spec: the heuristic combined score of section 4.3, the
sum of category score times weight; the aggregator is missing from the
front-end sources. -/
def heuristicScore (c : CategoryScores) : ℚ :=
  c.hosting * categoryWeights.hosting + c.dns * categoryWeights.dns
    + c.ssl * categoryWeights.ssl + c.cdn * categoryWeights.cdn
    + c.domainStatus * categoryWeights.domainStatus

/-- Modelled from the spec: the blending rule of section 4.3, missing from the
front-end sources: an equal blend with `mlScore` when the prediction is
available, else the heuristic score. -/
def finalScore (heuristic : ℚ) (ml : Option MLPrediction) : ℚ :=
  match ml with
  | some p => if p.available then 0.5 * heuristic + 0.5 * p.mlScore else heuristic
  | none => heuristic

/-- Modelled from the spec: the analysis object the service returns for a
heuristic score and an optional prediction, under the field names that the
front end reads (`suspicious_score`, `combined_score`, `ml_prediction.ml_available`,
`ml_prediction.ml_score`); the serialiser is not in the front-end sources. -/
def analysisResponse (heuristic : ℚ) (ml : Option MLPrediction) : JSValue :=
  .obj
    [ ("suspicious_score", .num (.fin heuristic)),
      ("combined_score", .num (.fin (finalScore heuristic ml))),
      ("ml_prediction",
        match ml with
        | some p =>
            .obj [ ("ml_available", .bool p.available), ("prediction", .str p.label),
                   ("confidence", .num (.fin p.confidence)), ("ml_score", .num (.fin p.mlScore)) ]
        | none => .null) ]

/-- The reading of "rounded to one decimal place" in section 4.3 of the
specification: the nearest multiple of one tenth, a tie going up. -/
def roundOneDecimal (q : ℚ) : ℚ := (⌊q * 10 + 1 / 2⌋ : ℤ) / 10

/-- A value that is a finite Number between 0 and 100, bounds included. -/
def scoreInRange : JSValue → Bool
  | .num (.fin q) => decide (0 ≤ q ∧ q ≤ 100)
  | _ => false

/-- A score field as the service may send it: left out (`undefined`), `null`,
or a Number between 0 and 100. -/
def scoreFieldOk : JSValue → Bool
  | .undefined => true
  | .null => true
  | v => scoreInRange v

/-! ## Further operations on numbers and values -/

namespace JSNum

/-- The JavaScript comparison `a < b` on two Numbers. -/
def lt : JSNum → JSNum → Bool
  | nan, _ => false
  | _, nan => false
  | posInf, _ => false
  | _, negInf => false
  | negInf, _ => true
  | _, posInf => true
  | fin a, fin b => decide (a < b)

/-- The JavaScript comparison `a > b` on two Numbers. -/
def gt (a b : JSNum) : Bool := lt b a

/-- Unary minus. -/
def neg : JSNum → JSNum
  | fin q => fin (-q)
  | posInf => negInf
  | negInf => posInf
  | nan => nan

/-- The sum `a + b` of two Numbers, exact on finite operands (the rounding of
a double sum is not tracked). -/
def add : JSNum → JSNum → JSNum
  | nan, _ => nan
  | _, nan => nan
  | posInf, negInf => nan
  | negInf, posInf => nan
  | posInf, _ => posInf
  | _, posInf => posInf
  | negInf, _ => negInf
  | _, negInf => negInf
  | fin a, fin b => fin (a + b)

/-- The difference `a - b` of two Numbers. -/
def sub (a b : JSNum) : JSNum := add a (neg b)

/-- The quotient `a / k` by a positive finite constant `k`, exact on a finite
dividend. -/
def divPos (a : JSNum) (k : ℚ) : JSNum :=
  match a with
  | fin q => fin (q / k)
  | posInf => posInf
  | negInf => negInf
  | nan => nan

/-- The function `Math.ceil`. -/
def ceil : JSNum → JSNum
  | fin q => fin (⌈q⌉ : ℤ)
  | posInf => posInf
  | negInf => negInf
  | nan => nan

end JSNum

namespace JSValue

/-- The test `Array.isArray(v)`. -/
def isArray : JSValue → Bool
  | arr _ => true
  | _ => false

/-- The test `v == null`, true for `null` and `undefined` only. -/
def isNullish : JSValue → Bool
  | undefined => true
  | null => true
  | _ => false

/-- The optional-chaining read `v?.key`: `undefined` when `v` is `null` or
`undefined`, the property read otherwise. -/
def optProp (v : JSValue) (key : String) : JSValue :=
  match v.getProp key with
  | none => undefined
  | some x => x

/-- The operator `a ?? b`. -/
def coalesce (a b : JSValue) : JSValue := if a.isNullish then b else a

/-- The conversion `Number(v)`.  Strings, arrays and objects are converted by
the runtime's string grammar, supplied as `coerce`. -/
def number (coerce : JSValue → JSNum) : JSValue → JSNum
  | undefined => .nan
  | null => .fin 0
  | bool b => .fin (if b then 1 else 0)
  | num n => n
  | v => coerce v

/-- Strict equality `a === b` of two values read from parsed JSON or from
component state: primitives compare by value (NaN differs from itself); two
arrays or objects that were parsed separately are never the same object. -/
def strictEq : JSValue → JSValue → Bool
  | undefined, undefined => true
  | null, null => true
  | bool a, bool b => a == b
  | num a, num b => (a.ge b) && (b.ge a)
  | str a, str b => a == b
  | _, _ => false

/-- The own keys of an object, each once. -/
def ownKeys (props : List (String × JSValue)) : List String :=
  (props.map Prod.fst).dedup

/-- The result of `Object.values(v)` on a value that is neither `null` nor
`undefined`, up to the order of the entries: the own property values of an
object, the items of an array, the characters of a string, nothing for a
number or a boolean. -/
def objectValues : JSValue → List JSValue
  | obj props => (ownKeys props).map (lookup props)
  | arr items => items
  | str s => s.toList.map (fun c => str (String.singleton c))
  | _ => []

/-- The method `flat()` (depth 1) on the items of an array: an item that is
an array is replaced by its items. -/
def flat : List JSValue → List JSValue
  | [] => []
  | arr xs :: rest => xs ++ flat rest
  | v :: rest => v :: flat rest

end JSValue

/-- The characters removed by `String.prototype.trim`: the ECMAScript
WhiteSpace and LineTerminator code points. -/
def jsIsWhiteSpace (c : Char) : Bool :=
  let n := c.val.toNat
  n = 9 || n = 10 || n = 11 || n = 12 || n = 13 || n = 32 || n = 160 || n = 5760
    || (8192 ≤ n && n ≤ 8202) || n = 8232 || n = 8233 || n = 8239 || n = 8287
    || n = 12288 || n = 65279

/-- The method `trim()`, on a string held as its sequence of code points. -/
def jsTrim (s : String) : String :=
  String.mk ((s.toList.dropWhile jsIsWhiteSpace).reverse.dropWhile jsIsWhiteSpace).reverse


/-! ## The history list (`HistoryPanel.js`, `loadHistory`) -/

/-- What one row of the history list shows of its record: the property values
that the row reads (lines 75-136). -/
structure HistoryRow where
  id : JSValue
  domain : JSValue
  country : JSValue
  city : JSValue
  real_ip : JSValue
  suspicious_score : JSValue
  timestamp : JSValue
  is_cdn_detected : JSValue
  asn : JSValue
  hosting_provider : JSValue
  cdn_provider : JSValue

/-- The body of the history list (lines 66-142): the "No Analysis History"
notice, or the rows. -/
inductive HistoryList where
  | emptyNotice
  | rows (rs : List HistoryRow)

/-- The outcome of the request made by `loadHistory`: a response with
`response.ok` and its parsed body, a response that is not ok, or a failure
that is caught. -/
inductive HistoryResponse where
  | ok (data : JSValue)
  | notOk
  | failed

namespace HistoryPanel

/-- The row built by the callback of `history.map` for one item (lines 73-141).
Reading a property of `null` or `undefined` throws (`none`). -/
def rowOf (item : JSValue) : Option HistoryRow :=
  match item with
  | .undefined => none
  | .null => none
  | v =>
    some
      { id := v.optProp "id", domain := v.optProp "domain", country := v.optProp "country",
        city := v.optProp "city", real_ip := v.optProp "real_ip",
        suspicious_score := v.optProp "suspicious_score", timestamp := v.optProp "timestamp",
        is_cdn_detected := v.optProp "is_cdn_detected", asn := v.optProp "asn",
        hosting_provider := v.optProp "hosting_provider",
        cdn_provider := v.optProp "cdn_provider" }

/-- The call `history.map(...)` over the items, in order; it throws as soon as
one row throws. -/
def rowsOf : List JSValue → Option (List HistoryRow)
  | [] => some []
  | item :: rest =>
    match rowOf item with
    | none => none
    | some r =>
      match rowsOf rest with
      | none => none
      | some rs => some (r :: rs)

/-- The history list (lines 66-142): the notice when `history.length === 0`,
else `history.map(...)`, which only an array has. -/
def renderList (history : JSValue) : Option HistoryList :=
  match history.getProp "length" with
  | none => none
  | some len =>
    if len.strictEq (.num (.fin 0)) then some .emptyNotice
    else
      match history with
      | .arr items => (rowsOf items).map HistoryList.rows
      | _ => none

/-- The order "timestamp descending" on a sequence of timestamp values: each
one is at least as late as every one after it, `timeValue` being the time
value the runtime's `Date` gives to a timestamp. -/
def timestampDescending (timeValue : JSValue → JSNum) (ts : List JSValue) : Prop :=
  ts.Pairwise (fun a b => (timeValue a).ge (timeValue b) = true)

end HistoryPanel

namespace SWHIPage

/-- The effect of `loadHistory` (lines 31-41) on the `history` state: replaced
by the parsed body of an ok response, left alone otherwise. -/
def loadHistory (history : JSValue) (response : HistoryResponse) : JSValue :=
  match response with
  | .ok data => data
  | .notOk => history
  | .failed => history

end SWHIPage


/-! ## The registration form (`RegisterPage.js`) -/

/-- The `formData` state of the registration page: five text fields. -/
structure RegisterForm where
  name : String
  email : String
  password : String
  confirmPassword : String
  department : String

/-- The payload handed to `API.authRegister` (lines 75-80). -/
structure RegisterPayload where
  name : String
  email : String
  password : String
  department : String
  deriving DecidableEq

/-- What `handleSubmit` has done when it returns or reaches its first `await`:
the arguments of its `setError` calls in order, whether `setLoading(true)` ran,
and the call of `API.authRegister`, if any. -/
structure RegisterTrace where
  errors : List String
  loading : Bool
  registerCall : Option RegisterPayload
  deriving DecidableEq

namespace RegisterPage

/-- The function `validateForm` (lines 36-62): the returned boolean and the
message passed to `setError`, if any. -/
def validateForm (formData : RegisterForm) : Bool × Option String :=
  if jsTrim formData.name = "" then (false, some "Name is required")
  else if jsTrim formData.email = "" then (false, some "Email is required")
  else if formData.password = "" then (false, some "Password is required")
  else if JSValue.utf16Length formData.password < 6 then
    (false, some "Password must be at least 6 characters long")
  else if formData.password ≠ formData.confirmPassword then (false, some "Passwords do not match")
  else if formData.department = "" then (false, some "Department is required")
  else (true, none)

/-- The function `handleSubmit` (lines 64-80) up to the call of
`API.authRegister`: clear the error, validate, return when validation fails,
else set the loading flag and send the four fields. -/
def handleSubmit (formData : RegisterForm) : RegisterTrace :=
  match validateForm formData with
  | (false, msg) => { errors := "" :: msg.toList, loading := false, registerCall := none }
  | (true, msg) =>
    { errors := "" :: msg.toList, loading := true,
      registerCall := some { name := formData.name, email := formData.email,
                             password := formData.password, department := formData.department } }

end RegisterPage

/-! ## The domain field (`DomainInput.js`) -/

/-- Regular expressions, as much of them as `domainRegex` uses: a character
class, sequence, the group followed by `*`, and the bounded repetition
`{0,n}` (which gives `?` for `n = 1`); `fail` and `eps` are the residues of
matching. -/
inductive Regex where
  | fail
  | eps
  | cls (p : Char → Bool)
  | seq (a b : Regex)
  | alt (a b : Regex)
  | star (a : Regex)
  | upTo (n : Nat) (a : Regex)

namespace Regex

/-- Whether the expression matches the empty string. -/
def nullable : Regex → Bool
  | fail => false
  | eps => true
  | cls _ => false
  | seq a b => a.nullable && b.nullable
  | alt a b => a.nullable || b.nullable
  | star _ => true
  | upTo _ _ => true

/-- The expression that matches what is left of a match after the character
`c` (the Brzozowski derivative). -/
def deriv (c : Char) : Regex → Regex
  | fail => fail
  | eps => fail
  | cls p => if p c then eps else fail
  | seq a b => if a.nullable then alt (seq (deriv c a) b) (deriv c b) else seq (deriv c a) b
  | alt a b => alt (deriv c a) (deriv c b)
  | star a => seq (deriv c a) (star a)
  | upTo 0 _ => fail
  | upTo (n + 1) a => seq (deriv c a) (upTo n a)

/-- Whether the expression, anchored with `^` and `$`, matches the whole
string: the method `test` of such an expression (no flags). -/
def test (r : Regex) (s : String) : Bool :=
  (s.toList.foldl (fun e c => deriv c e) r).nullable

end Regex

/-- The calls made by one run of `handleSubmit` of the domain field: the
argument of `setIsValid`, and the arguments of `setDomain` and `onAnalyze`
when they are called. -/
structure DomainSubmit where
  isValid : Bool
  setDomain : Option String
  onAnalyze : Option String
  deriving DecidableEq

namespace DomainInput

/-- The class `[a-zA-Z0-9]`. -/
def alnum (c : Char) : Bool :=
  ('a' ≤ c && c ≤ 'z') || ('A' ≤ c && c ≤ 'Z') || ('0' ≤ c && c ≤ '9')

/-- The class `[a-zA-Z0-9-]`. -/
def alnumHyphen (c : Char) : Bool := alnum c || c = '-'

/-- One label, `[a-zA-Z0-9](?:[a-zA-Z0-9-]{0,61}[a-zA-Z0-9])?`. -/
def labelRegex : Regex :=
  .seq (.cls alnum) (.upTo 1 (.seq (.upTo 61 (.cls alnumHyphen)) (.cls alnum)))

/-- The constant `domainRegex` (line 10): any number of labels each followed
by a dot, then one label, between `^` and `$`. -/
def domainRegex : Regex :=
  .seq (.star (.seq labelRegex (.cls (fun c => c = '.')))) labelRegex

/-- The function `validateDomain` (lines 9-12). -/
def validateDomain (domain : String) : Bool := domainRegex.test domain

/-- The function `handleSubmit` (lines 14-31) on the text of the field.  The
method `toLowerCase` is the runtime's, supplied as `toLowerCase`. -/
def handleSubmit (toLowerCase : String → String) (inputValue : String) : DomainSubmit :=
  let cleanDomain := toLowerCase (jsTrim inputValue)
  if cleanDomain = "" then { isValid := false, setDomain := none, onAnalyze := none }
  else if !validateDomain cleanDomain then { isValid := false, setDomain := none, onAnalyze := none }
  else { isValid := true, setDomain := some cleanDomain, onAnalyze := some cleanDomain }

end DomainInput


namespace SSLAnalysis

/-- The function `getDaysUntilExpiry` (lines 44-55).  The time value in
milliseconds that `new Date(v)` gives to a value (NaN when it cannot be
parsed) is the runtime's, supplied as `timeValue`; `now` is the time value of
`new Date()`.  Nothing in the body throws, so the `catch` branch is never
taken.  On whole milliseconds the double quotient and this exact quotient
have the same ceiling sign. -/
def getDaysUntilExpiry (timeValue : JSValue → JSNum) (now : ℚ) (notAfter : JSValue) : JSValue :=
  if !notAfter.truthy then .null
  else
    let expiryDate := timeValue notAfter
    let diffTime := JSNum.sub expiryDate (.fin now)
    let diffDays := JSNum.ceil (JSNum.divPos diffTime (1000 * 60 * 60 * 24))
    .num diffDays

end SSLAnalysis


namespace DNSAnalysis

/-- The condition of the "No DNS records detected" overlay (line 61):
`Object.values(dnsRecords).flat().length === 0`. -/
def overlayShown (analysis : JSValue) : Option Bool :=
  match dnsRecords analysis with
  | none => none
  | some d => some (decide ((JSValue.flat (JSValue.objectValues d)).length = 0))

end DNSAnalysis


/-! ## Loading the quiz (`QuizPage.js`) -/

namespace JSValue

/-- The properties that an array contributes to a spread: its items under
their indices, counted from `i`. -/
def indexProps : Nat → List JSValue → List (String × JSValue)
  | _, [] => []
  | i, v :: rest => (toString i, v) :: indexProps (i + 1) rest

/-- The own properties copied by the object spread `{...v}`: those of an
object, the indexed items of an array, the indexed characters of a string,
none for any other value. -/
def spread : JSValue → List (String × JSValue)
  | obj props => props
  | arr items => indexProps 0 items
  | str s => indexProps 0 (s.toList.map (fun c => str (String.singleton c)))
  | _ => []

/-- An object literal's `key: v` after a spread: the binding of `key` that is
read is replaced, or the property is added. -/
def setProp : List (String × JSValue) → String → JSValue → List (String × JSValue)
  | [], key, v => [(key, v)]
  | (k, w) :: rest, key, v =>
    if k = key then (key, v) :: rest else (k, w) :: setProp rest key v

end JSValue

/-- The outcome of the request made by `fetchQuestions`: an ok response with
its parsed body, a response that is not ok, or a failure of `fetch` or of
`response.json()`. -/
inductive QuizResponse where
  | ok (data : JSValue)
  | notOk
  | failed

/-- The state left by `fetchQuestions`: the `questions` array and whether the
`catch` branch ran (and an error message was set). -/
structure QuizLoad where
  questions : List JSValue
  failed : Bool

namespace QuizPage

/-- The callback of `data.map` (lines 36-39): a copy of the question whose
`options` is `q.options` when that is an array, else `q.options || []`.
Reading `options` of `null` or `undefined` throws (`none`). -/
def normalizeQuestion (q : JSValue) : Option JSValue :=
  match q.getProp "options" with
  | none => none
  | some o =>
    some (.obj (JSValue.setProp q.spread "options" (if o.isArray then o else o.or (.arr []))))

/-- The call `data.map(...)` over the questions; it throws as soon as one
callback throws. -/
def normalizeAll : List JSValue → Option (List JSValue)
  | [] => some []
  | q :: rest =>
    match normalizeQuestion q with
    | none => none
    | some n =>
      match normalizeAll rest with
      | none => none
      | some ns => some (n :: ns)

/-- The function `fetchQuestions` (lines 18-49) as a function of the response:
anything thrown in the `try` block ends in `setQuestions([])` with an error
message. -/
def fetchQuestions (response : QuizResponse) : QuizLoad :=
  match response with
  | .ok (.arr items) =>
    if items.length = 0 then { questions := [], failed := true }
    else
      match normalizeAll items with
      | none => { questions := [], failed := true }
      | some normalized => { questions := normalized, failed := false }
  | _ => { questions := [], failed := true }

end QuizPage


/-! ## Grading the adaptive quiz (`AdaptiveQuiz.jsx`) -/

/-- The object passed to `setResult` by `submit`. -/
structure QuizResult where
  correct : Nat
  total : Nat
  deriving DecidableEq

namespace AdaptiveQuiz

/-- The loop `quiz.forEach((q, idx) => ...)` of `submit` (lines 26-29), from
index `idx` on, with the running value of `correct`.  The `answers` state is
an object keyed by question index.  Reading `correct_choice_id` of a question
that is `null` or `undefined` throws (`none`); it is only read when the
answer is present. -/
def gradeFrom (answers : List (String × JSValue)) : Nat → List JSValue → Nat → Option Nat
  | _, [], correct => some correct
  | idx, q :: rest, correct =>
    let ans := JSValue.lookup answers (toString idx)
    if !ans.isNullish then
      match q.getProp "correct_choice_id" with
      | none => none
      | some cid => gradeFrom answers (idx + 1) rest (if ans.strictEq cid then correct + 1 else correct)
    else gradeFrom answers (idx + 1) rest correct

/-- The function `submit` (lines 23-31): the result that is stored. -/
def submit (quiz : List JSValue) (answers : List (String × JSValue)) : Option QuizResult :=
  (gradeFrom answers 0 quiz 0).map (fun correct => { correct := correct, total := quiz.length })

/-- Whether question `i` of a list of question objects counts as correct: the
answer stored under index `offset + i` is present (neither `null` nor
`undefined`) and strictly equal to the question's `correct_choice_id`. -/
def correctAt (answers : List (String × JSValue)) (offset : Nat)
    (questions : List (List (String × JSValue))) (i : Nat) : Bool :=
  match questions[i]? with
  | some q =>
    !(JSValue.lookup answers (toString (offset + i))).isNullish &&
      (JSValue.lookup answers (toString (offset + i))).strictEq (JSValue.lookup q "correct_choice_id")
  | none => false

end AdaptiveQuiz


/-! ## The awareness trend of the admin dashboard (`AdminDashboard.js`) -/

namespace AdminDashboard

/-- The constant `_defaultLabels` (line 139). -/
def defaultLabels : List JSValue :=
  [.str "Week 1", .str "Week 2", .str "Week 3", .str "Week 4"]

/-- The read `dashboardData?.quiz_stats?.key`. -/
def quizStat (dashboardData : JSValue) (key : String) : JSValue :=
  (dashboardData.optProp "quiz_stats").optProp key

/-- The binding `_trendLabels` (lines 140-142): the provided labels when they
are a non-empty array, else the four default labels. -/
def trendLabels (dashboardData : JSValue) : List JSValue :=
  match quizStat dashboardData "trend_labels" with
  | .arr items => if items.length > 0 then items else defaultLabels
  | _ => defaultLabels

/-- The binding `_weeklyRaw` (line 144). -/
def weeklyRaw (dashboardData : JSValue) : JSValue :=
  quizStat dashboardData "weekly_scores"

/-- The binding `_avg` (line 145):
`Number(dashboardData?.quiz_stats?.average_score ?? 0)`. -/
def avg (coerce : JSValue → JSNum) (dashboardData : JSValue) : JSNum :=
  JSValue.number coerce ((quizStat dashboardData "average_score").coalesce (.num (.fin 0)))

/-- The loop `while (_trendData.length < _trendLabels.length)
_trendData.push(_avg)` (lines 151 and 155), `n` being the number of labels. -/
def padLoop (n : Nat) (avg : JSNum) (data : List JSNum) : List JSNum :=
  if data.length < n then padLoop n avg (data ++ [avg]) else data
termination_by n - data.length
decreasing_by
  simp only [List.length_append, List.length_singleton]
  omega

/-- The operator `a || b` on two Numbers. -/
def numOr (a b : JSNum) : JSNum := if a.truthy then a else b

/-- The default series (line 154):
`[_avg - 15 || 50, _avg - 5 || 60, _avg + 3 || 70, _avg]`. -/
def defaultSeries (avg : JSNum) : List JSNum :=
  [numOr (avg.sub (.fin 15)) (.fin 50), numOr (avg.sub (.fin 5)) (.fin 60),
   numOr (avg.add (.fin 3)) (.fin 70), avg]

/-- The value of `_trendData` before clamping (lines 148-156): the provided
weekly scores cut to the number of labels and converted with `Number`, or the
default series cut to the number of labels, then padded with `_avg`. -/
def trendDataRaw (coerce : JSValue → JSNum) (dashboardData : JSValue) : List JSNum :=
  let labels := trendLabels dashboardData
  let a := avg coerce dashboardData
  match weeklyRaw dashboardData with
  | .arr items =>
    if items.length > 0 then
      padLoop labels.length a ((items.take labels.length).map (JSValue.number coerce))
    else padLoop labels.length a ((defaultSeries a).take labels.length)
  | _ => padLoop labels.length a ((defaultSeries a).take labels.length)

/-- The callback of the clamping `map` (lines 159-164) on a Number:
`v = Number(n) || 0`, then 0 below 0, 100 above 100, else `v`. -/
def clamp (n : JSNum) : JSNum :=
  let v := numOr n (.fin 0)
  if v.lt (.fin 0) then .fin 0
  else if v.gt (.fin 100) then .fin 100
  else v

/-- The final value of `_trendData` (lines 159-164), the data of the chart. -/
def trendData (coerce : JSValue → JSNum) (dashboardData : JSValue) : List JSNum :=
  (trendDataRaw coerce dashboardData).map clamp

/-- A finite Number between 0 and 100, bounds included. -/
def inChartRange : JSNum → Bool
  | .fin q => decide (0 ≤ q ∧ q ≤ 100)
  | _ => false

end AdminDashboard


/-! ## The threat feed (`ThreatIntelligence.js`) -/

/-- One entry of the threat feed.  The `id` is a Number and the `timestamp` a
`Date`, held as its time value in milliseconds. -/
structure Threat where
  id : ℚ
  title : String
  description : String
  severity : String
  category : String
  timestamp : ℚ
  source : String
  affected : String
  indicators : List String
  deriving DecidableEq

namespace ThreatIntelligence

/-- The array `newThreats` of `addNewThreat` (lines 93-116); `now` is the value
of `Date.now()`, which is also the time value of `new Date()`. -/
def newThreats (now : ℚ) : List Threat :=
  [ { id := now,
      title := "New Malware Variant Detected in Email Attachments",
      description := "Trojan disguised as PDF invoice. Avoid opening unexpected attachments.",
      severity := "high", category := "Malware", timestamp := now,
      source := "Symantec Threat Intelligence", affected := "All Users",
      indicators := ["invoice_malware.pdf.exe"] },
    { id := now,
      title := "DDoS Attack Targeting Cloud Services",
      description := "Large-scale distributed denial of service attack affecting multiple cloud providers.",
      severity := "medium", category := "DDoS", timestamp := now,
      source := "Cloudflare Radar", affected := "Cloud Infrastructure",
      indicators := ["botnet-c2.example.com"] } ]

/-- The element `list[i]` for a Number `i` that is an integer: `none` stands
for `undefined`, the value at an index outside the array. -/
def elementAt (list : List Threat) : ℤ → Option Threat
  | .ofNat n => list[n]?
  | .negSucc _ => none

/-- The binding `randomThreat` (line 118):
`newThreats[Math.floor(Math.random() * newThreats.length)]`, `random` being
the value returned by `Math.random()`. -/
def randomThreat (now random : ℚ) : Option Threat :=
  elementAt (newThreats now) ⌊random * ((newThreats now).length : ℚ)⌋

/-- The state update of `addNewThreat` (line 119):
`prev => [randomThreat, ...prev].slice(0, 20)`.  An entry of the list is
`none` where JavaScript has `undefined`. -/
def addNewThreat (now random : ℚ) (prev : List (Option Threat)) : List (Option Threat) :=
  (randomThreat now random :: prev).take 20

end ThreatIntelligence


/-! ## The tier shown beside a rounded score -/

namespace HistoryPanel

/-- The colour class of a history row's score,
`getRiskColor(item.suspicious_score)` (line 100). -/
def riskColor (item : JSValue) : Option String :=
  match item.getProp "suspicious_score" with
  | none => none
  | some s => s.toNumber.map getRiskColor

end HistoryPanel

namespace PDFExport

/-- The field `riskLevel` of the report data (line 13):
`getRiskLevel(analysis.suspicious_score || 0)`. -/
def riskLevel (analysis : JSValue) : Option RiskBadge :=
  match suspiciousScore analysis with
  | none => none
  | some s => s.toNumber.map getRiskLevel

end PDFExport


/-! ## Helper lemmas on comparisons -/

theorem ge_fin_fin (a b : ℚ) : (JSNum.fin a).ge (.fin b) = decide (b ≤ a) := rfl

/-- Level of a finite score, in terms of the order of the rationals. -/
theorem pageLevel_fin (q : ℚ) :
    (SWHIPage.getRiskLevel (.fin q)).level =
      if 80 ≤ q then Level.HIGH else if 50 ≤ q then Level.MEDIUM
      else if 20 ≤ q then Level.LOW else Level.MINIMAL := by
  unfold SWHIPage.getRiskLevel
  simp only [ge_fin_fin]
  by_cases h80 : (80 : ℚ) ≤ q
  · simp [h80]
  · by_cases h50 : (50 : ℚ) ≤ q
    · simp [h80, h50]
    · by_cases h20 : (20 : ℚ) ≤ q
      · simp [h80, h50, h20]
      · simp [h80, h50, h20]

/-- Level of a finite score in the stand-alone application. -/
theorem appLevel_fin (q : ℚ) :
    (App.getRiskLevel (.fin q)).level =
      if 80 ≤ q then Level.HIGH else if 50 ≤ q then Level.MEDIUM
      else if 20 ≤ q then Level.LOW else Level.MINIMAL := by
  unfold App.getRiskLevel
  simp only [ge_fin_fin]
  by_cases h80 : (80 : ℚ) ≤ q
  · simp [h80]
  · by_cases h50 : (50 : ℚ) ≤ q
    · simp [h80, h50]
    · by_cases h20 : (20 : ℚ) ≤ q
      · simp [h80, h50, h20]
      · simp [h80, h50, h20]

theorem pageLevel_posInf : (SWHIPage.getRiskLevel .posInf).level = Level.HIGH := rfl

theorem pageLevel_negInf : (SWHIPage.getRiskLevel .negInf).level = Level.MINIMAL := rfl

theorem pageLevel_nan : (SWHIPage.getRiskLevel .nan).level = Level.MINIMAL := rfl

/-! ## C1: the threshold table -/

/-- C1: for every numeric score, `getRiskLevel` (in the page and in the
stand-alone application) answers HIGH from 80 up, else MEDIUM from 50 up, else
LOW from 20 up, else MINIMAL, the lower bounds being inclusive; plus infinity
is HIGH, minus infinity and NaN are MINIMAL; and 80 is HIGH, 79.999 MEDIUM,
50 MEDIUM, 49.999 LOW, 20 LOW, 19.999 MINIMAL. -/
theorem C1_getRiskLevel_thresholds :
    (∀ q : ℚ, (SWHIPage.getRiskLevel (.fin q)).level =
        if 80 ≤ q then Level.HIGH else if 50 ≤ q then Level.MEDIUM
        else if 20 ≤ q then Level.LOW else Level.MINIMAL) ∧
    (∀ q : ℚ, (App.getRiskLevel (.fin q)).level =
        if 80 ≤ q then Level.HIGH else if 50 ≤ q then Level.MEDIUM
        else if 20 ≤ q then Level.LOW else Level.MINIMAL) ∧
    (SWHIPage.getRiskLevel .posInf).level = Level.HIGH ∧
    (SWHIPage.getRiskLevel .negInf).level = Level.MINIMAL ∧
    (SWHIPage.getRiskLevel .nan).level = Level.MINIMAL ∧
    (App.getRiskLevel .posInf).level = Level.HIGH ∧
    (App.getRiskLevel .negInf).level = Level.MINIMAL ∧
    (App.getRiskLevel .nan).level = Level.MINIMAL ∧
    (SWHIPage.getRiskLevel (.fin 80)).level = Level.HIGH ∧
    (SWHIPage.getRiskLevel (.fin (79999 / 1000))).level = Level.MEDIUM ∧
    (SWHIPage.getRiskLevel (.fin 50)).level = Level.MEDIUM ∧
    (SWHIPage.getRiskLevel (.fin (49999 / 1000))).level = Level.LOW ∧
    (SWHIPage.getRiskLevel (.fin 20)).level = Level.LOW ∧
    (SWHIPage.getRiskLevel (.fin (19999 / 1000))).level = Level.MINIMAL := by
  refine ⟨pageLevel_fin, appLevel_fin, rfl, rfl, rfl, rfl, rfl,
    rfl, ?_, ?_, ?_, ?_, ?_, ?_⟩
  all_goals rw [pageLevel_fin]; norm_num

/-! ## C2: tier monotonicity -/

/-- C2: for all numeric scores with `s1 <= s2` (the JavaScript comparison), the
tier of `getRiskLevel(s1)` is at most the tier of `getRiskLevel(s2)` in the
order MINIMAL < LOW < MEDIUM < HIGH. -/
theorem C2_tier_monotone (s1 s2 : JSNum) (h : s1.le s2 = true) :
    (SWHIPage.getRiskLevel s1).level.rank ≤ (SWHIPage.getRiskLevel s2).level.rank := by
  cases s1 with
  | nan => cases s2 <;> simp [JSNum.le, JSNum.ge] at h
  | negInf => rw [pageLevel_negInf]; exact Nat.zero_le _
  | posInf =>
    cases s2 with
    | posInf => exact Nat.le_refl _
    | fin b => simp [JSNum.le, JSNum.ge] at h
    | negInf => simp [JSNum.le, JSNum.ge] at h
    | nan => simp [JSNum.le, JSNum.ge] at h
  | fin a =>
    cases s2 with
    | posInf =>
      rw [pageLevel_posInf]
      cases (SWHIPage.getRiskLevel (.fin a)).level <;> decide
    | negInf => simp [JSNum.le, JSNum.ge] at h
    | nan => simp [JSNum.le, JSNum.ge] at h
    | fin b =>
      have hab : a ≤ b := by simpa [JSNum.le, JSNum.ge] using h
      rw [pageLevel_fin, pageLevel_fin]
      split_ifs <;> first | decide | (exfalso; linarith)

/-- C2 at the scores 49.999 and 50: the tier goes from LOW to MEDIUM. -/
theorem C2_tier_monotone_witness :
    (JSNum.fin (49999 / 1000)).le (.fin 50) = true ∧
    (SWHIPage.getRiskLevel (.fin (49999 / 1000))).level.rank ≤
      (SWHIPage.getRiskLevel (.fin 50)).level.rank :=
  ⟨by simp [JSNum.le, JSNum.ge]; norm_num,
   C2_tier_monotone (.fin (49999 / 1000)) (.fin 50) (by simp [JSNum.le, JSNum.ge]; norm_num)⟩

/-! ## C3: boundedness of the displayed score -/

theorem scoreFieldOk_falsy_or (s : JSValue) (hs : scoreFieldOk s = true) :
    scoreInRange (s.or (.num (.fin 0))) = true := by
  unfold JSValue.or
  cases s with
  | undefined => simp [JSValue.truthy, scoreInRange]
  | null => simp [JSValue.truthy, scoreInRange]
  | bool b => simp [scoreFieldOk, scoreInRange] at hs
  | str t => simp [scoreFieldOk, scoreInRange] at hs
  | arr l => simp [scoreFieldOk, scoreInRange] at hs
  | obj l => simp [scoreFieldOk, scoreInRange] at hs
  | num n =>
    have hn : scoreInRange (.num n) = true := by simpa [scoreFieldOk] using hs
    by_cases ht : (JSValue.num n).truthy = true
    · simp [ht, hn]
    · simp [ht, scoreInRange]

/-- C3 fails as stated: for the analysis object whose `combined_score` is 150
the score that is displayed, classified and used as the bar width is 150,
which is above 100; the page does not clamp. -/
theorem C3_unclamped_counterexample :
    SWHIPage.scoreExpr (.obj [("combined_score", .num (.fin 150))]) = some (.num (.fin 150)) ∧
    SuspiciousScore.barWidthPercent (.num (.fin 150)) = .num (.fin 150) ∧
    scoreInRange (.num (.fin 150)) = false ∧
    ¬ ((150 : ℚ) ≤ 100) := by
  refine ⟨?_, rfl, ?_, by norm_num⟩
  · simp [SWHIPage.scoreExpr, JSValue.getProp, JSValue.lookup, JSValue.truthy, JSNum.truthy]
  · simp [scoreInRange]
    norm_num

/-- C3 as amended: when `combined_score` and `suspicious_score` are each left
out, `null`, or a Number between 0 and 100, the score that is displayed,
classified and used as the bar width is a Number between 0 and 100. -/
theorem C3_score_bounded_of_fields (analysis c s : JSValue)
    (hc : analysis.getProp "combined_score" = some c)
    (hs : analysis.getProp "suspicious_score" = some s)
    (hcok : scoreFieldOk c = true) (hsok : scoreFieldOk s = true) :
    ∃ score, SWHIPage.scoreExpr analysis = some score ∧
      scoreInRange score = true ∧
      scoreInRange (SuspiciousScore.barWidthPercent score) = true := by
  unfold SWHIPage.scoreExpr SuspiciousScore.barWidthPercent
  rw [hc]
  by_cases ht : c.truthy = true
  · have hcr : scoreInRange c = true := by
      cases c with
      | undefined => simp [JSValue.truthy] at ht
      | null => simp [JSValue.truthy] at ht
      | bool b => simpa [scoreFieldOk] using hcok
      | num n => simpa [scoreFieldOk] using hcok
      | str t => simpa [scoreFieldOk] using hcok
      | arr l => simpa [scoreFieldOk] using hcok
      | obj l => simpa [scoreFieldOk] using hcok
    exact ⟨c, by simp [ht], hcr, hcr⟩
  · refine ⟨s.or (.num (.fin 0)), by simp [ht, hs], ?_, ?_⟩ <;>
      exact scoreFieldOk_falsy_or s hsok

/-- C3 as amended, at the analysis with `combined_score` 72.5 and
`suspicious_score` 40. -/
theorem C3_score_bounded_of_fields_witness :
    ∃ score,
      SWHIPage.scoreExpr
        (.obj [("combined_score", .num (.fin (145 / 2))), ("suspicious_score", .num (.fin 40))])
        = some score ∧
      scoreInRange score = true ∧
      scoreInRange (SuspiciousScore.barWidthPercent score) = true :=
  C3_score_bounded_of_fields
    (.obj [("combined_score", .num (.fin (145 / 2))), ("suspicious_score", .num (.fin 40))])
    (.num (.fin (145 / 2))) (.num (.fin 40))
    (by simp [JSValue.getProp, JSValue.lookup])
    (by simp [JSValue.getProp, JSValue.lookup])
    (by simp [scoreFieldOk, scoreInRange]; norm_num)
    (by simp [scoreFieldOk, scoreInRange]; norm_num)

/-! ## C5: passthrough of the heuristic score -/

theorem num_or_zero (s : JSNum) (hs : s ≠ JSNum.nan) :
    (JSValue.num s).or (.num (.fin 0)) = .num s := by
  unfold JSValue.or
  cases s with
  | nan => exact absurd rfl hs
  | posInf => simp [JSValue.truthy, JSNum.truthy]
  | negInf => simp [JSValue.truthy, JSNum.truthy]
  | fin q =>
    by_cases hq : q = 0
    · simp [JSValue.truthy, JSNum.truthy, hq]
    · simp [JSValue.truthy, JSNum.truthy, hq]

/-- C5: when the analysis carries no `combined_score` (the field is left out,
`null`, or otherwise falsy) and `suspicious_score` is a Number (JSON has no
NaN), the score that is displayed and classified, in the page and in the
stand-alone application, is `suspicious_score` unchanged, and the risk level is
`getRiskLevel` of that same number. -/
theorem C5_no_ml_passthrough (analysis c : JSValue) (s : JSNum)
    (hc : analysis.getProp "combined_score" = some c) (hcf : c.truthy = false)
    (hs : analysis.getProp "suspicious_score" = some (.num s)) (hnan : s ≠ JSNum.nan) :
    SWHIPage.scoreExpr analysis = some (.num s) ∧
    App.scoreExpr analysis = some (.num s) ∧
    (SWHIPage.scoreProps analysis).map ScoreProps.score = some (.num s) ∧
    (SWHIPage.scoreProps analysis).map ScoreProps.riskLevel = some (SWHIPage.getRiskLevel s) := by
  have h1 : SWHIPage.scoreExpr analysis = some (.num s) := by
    simp [SWHIPage.scoreExpr, hc, hcf, hs, num_or_zero s hnan]
  have h2 : App.scoreExpr analysis = some (.num s) := by
    simp [App.scoreExpr, hc, hcf, hs, num_or_zero s hnan]
  refine ⟨h1, h2, ?_, ?_⟩ <;> simp [SWHIPage.scoreProps, h1, JSValue.toNumber]

/-- C5 at the analysis that holds only `suspicious_score: 40`: the score is
exactly 40 and the level is LOW. -/
theorem C5_no_ml_passthrough_witness :
    SWHIPage.scoreExpr (.obj [("suspicious_score", .num (.fin 40))]) = some (.num (.fin 40)) ∧
    App.scoreExpr (.obj [("suspicious_score", .num (.fin 40))]) = some (.num (.fin 40)) ∧
    (SWHIPage.scoreProps (.obj [("suspicious_score", .num (.fin 40))])).map ScoreProps.score
      = some (.num (.fin 40)) ∧
    (SWHIPage.scoreProps (.obj [("suspicious_score", .num (.fin 40))])).map ScoreProps.riskLevel
      = some (SWHIPage.getRiskLevel (.fin 40)) :=
  C5_no_ml_passthrough (.obj [("suspicious_score", .num (.fin 40))]) .undefined (.fin 40)
    (by simp [JSValue.getProp, JSValue.lookup]) rfl
    (by simp [JSValue.getProp, JSValue.lookup]) (by simp)

/-! ## C8: determinism -/

/-- C8: the selected score and its risk level are a function of the analysis
alone: two renders of the page from states that hold analyses with the same
`combined_score` and `suspicious_score` (and the same loading flag) produce the
same score and the same risk level, whatever the rest of the state (domain,
error, history, history toggle) and of the analysis. -/
theorem C8_score_deterministic (st1 st2 : SWHIState)
    (hc : st1.analysis.getProp "combined_score" = st2.analysis.getProp "combined_score")
    (hs : st1.analysis.getProp "suspicious_score" = st2.analysis.getProp "suspicious_score")
    (ht : st1.analysis.truthy = st2.analysis.truthy)
    (hl : st1.loading = st2.loading) :
    SWHIPage.renderScore st1 = SWHIPage.renderScore st2 := by
  unfold SWHIPage.renderScore SWHIPage.scoreProps SWHIPage.scoreExpr
  rw [hc, hs, ht, hl]

/-- C8 at two page states that differ in domain, error, history and toggle and
whose analyses differ outside the two score fields: both render score 60 with
the same risk level. -/
theorem C8_score_deterministic_witness :
    SWHIPage.renderScore
      { domain := "", analysis := .obj [("combined_score", .num (.fin 60)), ("domain", .str "a.example")],
        loading := false, error := .null, history := .arr [], showHistory := false }
    = SWHIPage.renderScore
      { domain := "a.example", analysis := .obj [("domain", .str "b.example"), ("combined_score", .num (.fin 60))],
        loading := false, error := .str "x", history := .arr [.null], showHistory := true } :=
  C8_score_deterministic _ _
    (by simp [JSValue.getProp, JSValue.lookup])
    (by simp [JSValue.getProp, JSValue.lookup])
    rfl rfl

/-! ## C4: the equal blend with the ML score -/

theorem analysisResponse_combined (h : ℚ) (ml : Option MLPrediction) :
    (analysisResponse h ml).getProp "combined_score" = some (.num (.fin (finalScore h ml))) := by
  simp [analysisResponse, JSValue.getProp, JSValue.lookup]

theorem analysisResponse_suspicious (h : ℚ) (ml : Option MLPrediction) :
    (analysisResponse h ml).getProp "suspicious_score" = some (.num (.fin h)) := by
  simp [analysisResponse, JSValue.getProp, JSValue.lookup]

/-- C4: when the prediction is available, the final combined score of the
aggregator is `0.5 × heuristicScore + 0.5 × mlScore`, and for scores that are
not negative the page displays exactly that number for the returned analysis,
classifies it with `getRiskLevel`, and shows the ML card. -/
theorem C4_ml_blending (h : ℚ) (p : MLPrediction)
    (hav : p.available = true) (hh : 0 ≤ h) (hm : 0 ≤ p.mlScore) :
    finalScore h (some p) = 0.5 * h + 0.5 * p.mlScore ∧
    SWHIPage.scoreExpr (analysisResponse h (some p)) = some (.num (.fin (0.5 * h + 0.5 * p.mlScore))) ∧
    (SWHIPage.scoreProps (analysisResponse h (some p))).map ScoreProps.riskLevel
      = some (SWHIPage.getRiskLevel (.fin (0.5 * h + 0.5 * p.mlScore))) ∧
    SWHIPage.showsMLCard (analysisResponse h (some p)) = some true := by
  have hf : finalScore h (some p) = 0.5 * h + 0.5 * p.mlScore := by
    simp [finalScore, hav]
  have hexpr : SWHIPage.scoreExpr (analysisResponse h (some p))
      = some (.num (.fin (0.5 * h + 0.5 * p.mlScore))) := by
    unfold SWHIPage.scoreExpr
    rw [analysisResponse_combined, analysisResponse_suspicious, hf]
    by_cases hz : 0.5 * h + 0.5 * p.mlScore = 0
    · have h0 : h = 0 := by linarith
      have hm0 : p.mlScore = 0 := by linarith
      simp [JSValue.truthy, JSNum.truthy, JSValue.or, h0, hm0]
    · simp [JSValue.truthy, JSNum.truthy, hz]
  refine ⟨hf, hexpr, ?_, ?_⟩
  · simp [SWHIPage.scoreProps, hexpr, JSValue.toNumber]
  · simp [SWHIPage.showsMLCard, analysisResponse, JSValue.getProp, JSValue.lookup,
      JSValue.truthy, hav]

/-- C4 at heuristic score 40 and `mlScore` 80: the final score, and the score
the page displays, is exactly 60. -/
theorem C4_ml_blending_witness :
    finalScore 40 (some { available := true, label := "malicious", confidence := 9 / 10, mlScore := 80 })
      = 60 ∧
    SWHIPage.scoreExpr
      (analysisResponse 40
        (some { available := true, label := "malicious", confidence := 9 / 10, mlScore := 80 }))
      = some (.num (.fin 60)) := by
  have key := C4_ml_blending 40
    { available := true, label := "malicious", confidence := 9 / 10, mlScore := 80 }
    rfl (by norm_num) (by norm_num)
  have e : (0.5 : ℚ) * 40 + 0.5 * 80 = 60 := by norm_num
  refine ⟨?_, ?_⟩
  · rw [key.1]; exact e
  · rw [key.2.1]; simp only [e]

/-! ## C6: the weighted sum -/

/-- C6: the heuristic combined score is the sum of the five category scores
times the weights 0.25 (hosting), 0.20 (dns), 0.25 (ssl), 0.10 (cdn) and 0.20
(domain status); the weights add up to 1; for an unregistered domain with the
other four categories at 0 the score is exactly 20, which the page classifies
as LOW. -/
theorem C6_weighted_sum :
    (∀ c : CategoryScores, heuristicScore c =
        0.25 * c.hosting + 0.20 * c.dns + 0.25 * c.ssl + 0.10 * c.cdn + 0.20 * c.domainStatus) ∧
    categoryWeights.hosting + categoryWeights.dns + categoryWeights.ssl + categoryWeights.cdn
      + categoryWeights.domainStatus = 1 ∧
    (∀ (ip dns ssl cdn : JSValue) (ml : Option MLPrediction),
      heuristicScore
        { hosting := 0, dns := 0, ssl := 0, cdn := 0,
          domainStatus := domainStatusScore
            { domainStatus := .unregistered, ipInfo := ip, dnsRecords := dns, sslInfo := ssl,
              cdnDetection := cdn, mlPrediction := ml } } = 20) ∧
    finalScore 20 none = 20 ∧
    (SWHIPage.getRiskLevel (.fin 20)).level = Level.LOW ∧
    (SWHIPage.scoreProps (analysisResponse 20 none)).map ScoreProps.riskLevel
      = some (SWHIPage.getRiskLevel (.fin 20)) := by
  refine ⟨?_, ?_, ?_, rfl, ?_, ?_⟩
  · intro c
    simp only [heuristicScore, categoryWeights]
    ring
  · simp only [categoryWeights]
    norm_num
  · intro ip dns ssl cdn ml
    simp only [heuristicScore, categoryWeights, domainStatusScore]
    norm_num
  · rw [pageLevel_fin]; norm_num
  · simp [SWHIPage.scoreProps, SWHIPage.scoreExpr, analysisResponse, finalScore,
      JSValue.getProp, JSValue.lookup, JSValue.truthy, JSNum.truthy, JSValue.toNumber]

/-! ## C7: the domain-status scorer -/

/-- C7: whatever the other fields of the input, the domain-status category
score is exactly 100 for an unregistered domain, 60 for a domain registered
without host, and 0 for an active domain. -/
theorem C7_domain_status_score (ip dns ssl cdn : JSValue) (ml : Option MLPrediction) :
    domainStatusScore
      { domainStatus := .unregistered, ipInfo := ip, dnsRecords := dns, sslInfo := ssl,
        cdnDetection := cdn, mlPrediction := ml } = 100 ∧
    domainStatusScore
      { domainStatus := .registered_no_host, ipInfo := ip, dnsRecords := dns, sslInfo := ssl,
        cdnDetection := cdn, mlPrediction := ml } = 60 ∧
    domainStatusScore
      { domainStatus := .active, ipInfo := ip, dnsRecords := dns, sslInfo := ssl,
        cdnDetection := cdn, mlPrediction := ml } = 0 :=
  ⟨rfl, rfl, rfl⟩

/-! ## C9: what the score is rounded to -/

theorem round_fin_eq (q : ℚ) (z : ℤ) (h1 : (z : ℚ) ≤ q + 1 / 2) (h2 : q + 1 / 2 < z + 1) :
    JSNum.round (.fin q) = .fin z := by
  have hz : ⌊q + 1 / 2⌋ = z := Int.floor_eq_iff.mpr ⟨h1, h2⟩
  simp only [JSNum.round, hz]

theorem roundOneDecimal_eq (q : ℚ) (z : ℤ) (h1 : (z : ℚ) ≤ q * 10 + 1 / 2)
    (h2 : q * 10 + 1 / 2 < z + 1) : roundOneDecimal q = z / 10 := by
  have hz : ⌊q * 10 + 1 / 2⌋ = z := Int.floor_eq_iff.mpr ⟨h1, h2⟩
  simp only [roundOneDecimal, hz]

/-- C9 fails as stated: for the score 42.25 the badge, the history row and the
exported report all print 42, while 42.25 rounded to one decimal place is 42.3. -/
theorem C9_one_decimal_counterexample :
    SuspiciousScore.badgeNumber (.num (.fin (169 / 4))) = some (.fin 42) ∧
    HistoryPanel.riskScoreNumber (.obj [("suspicious_score", .num (.fin (169 / 4)))])
      = some (.fin 42) ∧
    PDFExport.scoreNumber (.obj [("suspicious_score", .num (.fin (169 / 4)))]) = some (.fin 42) ∧
    roundOneDecimal (169 / 4) = 423 / 10 ∧
    SuspiciousScore.badgeNumber (.num (.fin (169 / 4)))
      ≠ some (.fin (roundOneDecimal (169 / 4))) := by
  have hr : JSNum.round (.fin (169 / 4)) = .fin 42 := by
    have := round_fin_eq (169 / 4) 42 (by norm_num) (by norm_num)
    simpa using this
  have hd : roundOneDecimal (169 / 4) = 423 / 10 := by
    have := roundOneDecimal_eq (169 / 4) 423 (by norm_num) (by norm_num)
    simpa using this
  have hb : SuspiciousScore.badgeNumber (.num (.fin (169 / 4))) = some (.fin 42) := by
    simp [SuspiciousScore.badgeNumber, JSValue.toNumber, hr]
  refine ⟨hb, ?_, ?_, hd, ?_⟩
  · simp [HistoryPanel.riskScoreNumber, JSValue.getProp, JSValue.lookup, JSValue.toNumber, hr]
  · simp [PDFExport.scoreNumber, PDFExport.suspiciousScore, JSValue.getProp, JSValue.lookup,
      JSValue.or, JSValue.truthy, JSNum.truthy, JSValue.toNumber, hr]
  · rw [hb, hd]
    intro h
    have h2 : (42 : ℚ) = 423 / 10 := by
      injection h with h1
      injection h1
    norm_num at h2

/-- C9 as amended: each site prints `Math.round` of the score it is given,
the integer nearest to it with a tie going up (so within one half of it), and
classifies the unrounded value of that same score.  On the page that score is
the combined score `analysis.combined_score || analysis.suspicious_score || 0`;
in a history row and in the exported report it is the record's
`suspicious_score`, whatever `combined_score` holds.  At 79.5 the badge prints
80, which alone would be HIGH, and the tier is MEDIUM. -/
theorem C9_display_rounds_to_integer (q : ℚ) :
    (∀ analysis : JSValue, SWHIPage.scoreExpr analysis = some (.num (.fin q)) →
      (SWHIPage.scoreProps analysis).map ScoreProps.score = some (.num (.fin q)) ∧
      (SWHIPage.scoreProps analysis).bind (fun p => SuspiciousScore.badgeNumber p.score)
        = some (.fin (⌊q + 1 / 2⌋ : ℤ)) ∧
      (SWHIPage.scoreProps analysis).map ScoreProps.riskLevel
        = some (SWHIPage.getRiskLevel (.fin q))) ∧
    (∀ item : JSValue, item.getProp "suspicious_score" = some (.num (.fin q)) →
      HistoryPanel.riskScoreNumber item = some (.fin (⌊q + 1 / 2⌋ : ℤ)) ∧
      HistoryPanel.riskColor item = some (HistoryPanel.getRiskColor (.fin q))) ∧
    (∀ analysis : JSValue, analysis.getProp "suspicious_score" = some (.num (.fin q)) →
      PDFExport.scoreNumber analysis = some (.fin (⌊q + 1 / 2⌋ : ℤ)) ∧
      PDFExport.riskLevel analysis = some (PDFExport.getRiskLevel (.fin q))) ∧
    (q - 1 / 2 < (⌊q + 1 / 2⌋ : ℤ) ∧ ((⌊q + 1 / 2⌋ : ℤ) : ℚ) ≤ q + 1 / 2) ∧
    (SuspiciousScore.badgeNumber (.num (.fin (159 / 2))) = some (.fin 80) ∧
      (SWHIPage.getRiskLevel (.fin (159 / 2))).level = Level.MEDIUM ∧
      (SWHIPage.getRiskLevel (.fin 80)).level = Level.HIGH) := by
  refine ⟨?_, ?_, ?_, ⟨?_, Int.floor_le _⟩, ?_, ?_, ?_⟩
  · intro analysis hexpr
    refine ⟨?_, ?_, ?_⟩ <;>
      simp [SWHIPage.scoreProps, hexpr, JSValue.toNumber, SuspiciousScore.badgeNumber,
        JSNum.round]
  · intro item hs
    constructor
    · unfold HistoryPanel.riskScoreNumber
      rw [hs]
      simp [JSValue.toNumber, JSNum.round]
    · unfold HistoryPanel.riskColor
      rw [hs]
      simp [JSValue.toNumber]
  · intro analysis hs
    have ho := num_or_zero (.fin q) (by simp)
    have hsus : PDFExport.suspiciousScore analysis = some (.num (.fin q)) := by
      unfold PDFExport.suspiciousScore
      rw [hs]
      simp [ho]
    constructor
    · unfold PDFExport.scoreNumber
      rw [hsus]
      simp [JSValue.toNumber, JSNum.round]
    · unfold PDFExport.riskLevel
      rw [hsus]
      simp [JSValue.toNumber]
  · have := Int.lt_floor_add_one (q + 1 / 2)
    linarith
  · have hr := round_fin_eq (159 / 2) 80 (by norm_num) (by norm_num)
    simp [SuspiciousScore.badgeNumber, JSValue.toNumber, hr]
  · rw [pageLevel_fin]; norm_num
  · rw [pageLevel_fin]; norm_num

/-- C9 as amended, at the analysis with `combined_score` 90.4 and
`suspicious_score` 10.5: the page prints 90 and classifies 90.4, while the
history row and the report print 11 and classify 10.5. -/
theorem C9_display_rounds_to_integer_witness :
    ((SWHIPage.scoreProps
        (.obj [("combined_score", .num (.fin (452 / 5))), ("suspicious_score", .num (.fin (21 / 2)))])).bind
        (fun p => SuspiciousScore.badgeNumber p.score) = some (.fin (⌊(452 / 5 : ℚ) + 1 / 2⌋ : ℤ)) ∧
      (SWHIPage.scoreProps
        (.obj [("combined_score", .num (.fin (452 / 5))), ("suspicious_score", .num (.fin (21 / 2)))])).map
        ScoreProps.riskLevel = some (SWHIPage.getRiskLevel (.fin (452 / 5)))) ∧
    (HistoryPanel.riskScoreNumber
        (.obj [("combined_score", .num (.fin (452 / 5))), ("suspicious_score", .num (.fin (21 / 2)))])
        = some (.fin (⌊(21 / 2 : ℚ) + 1 / 2⌋ : ℤ)) ∧
      HistoryPanel.riskColor
        (.obj [("combined_score", .num (.fin (452 / 5))), ("suspicious_score", .num (.fin (21 / 2)))])
        = some (HistoryPanel.getRiskColor (.fin (21 / 2)))) ∧
    (PDFExport.scoreNumber
        (.obj [("combined_score", .num (.fin (452 / 5))), ("suspicious_score", .num (.fin (21 / 2)))])
        = some (.fin (⌊(21 / 2 : ℚ) + 1 / 2⌋ : ℤ)) ∧
      PDFExport.riskLevel
        (.obj [("combined_score", .num (.fin (452 / 5))), ("suspicious_score", .num (.fin (21 / 2)))])
        = some (PDFExport.getRiskLevel (.fin (21 / 2)))) :=
  ⟨(((C9_display_rounds_to_integer (452 / 5)).1 _
      (by
        simp [SWHIPage.scoreExpr, JSValue.getProp, JSValue.lookup, JSValue.truthy,
          JSNum.truthy])).2),
   (C9_display_rounds_to_integer (21 / 2)).2.1 _ (by simp [JSValue.getProp, JSValue.lookup]),
   (C9_display_rounds_to_integer (21 / 2)).2.2.1 _ (by simp [JSValue.getProp, JSValue.lookup])⟩

/-! ## C10: defaults for missing sections -/

theorem falsy_or (d e : JSValue) (hd : d.truthy = false) : d.or e = e := by
  simp [JSValue.or, hd]

theorem dnsRecords_of_missing (analysis d : JSValue)
    (h : analysis.getProp "dns_records" = some d) (hd : d.truthy = false) :
    DNSAnalysis.dnsRecords analysis = some (.obj []) := by
  unfold DNSAnalysis.dnsRecords
  rw [h]
  simp [falsy_or d _ hd]

/-- C10: for every analysis object, a `dns_records` that is missing (left out,
`null`, or otherwise falsy) is read as the empty object, so each of the six
record types has the empty record list and the count 0; a missing
`cdn_detection` is read as the empty object, so `detected` is false and the
page says "No"; a missing `ssl_info` is read as the empty object, so no
certificate field is there: the validity status is `unknown` (neither valid
nor invalid) and there is no `not_after` date. -/
theorem C10_missing_defaults (analysis : JSValue) :
    (∀ d, analysis.getProp "dns_records" = some d → d.truthy = false →
      DNSAnalysis.dnsRecords analysis = some (.obj []) ∧
      DNSAnalysis.recordTypes.map (fun rt => DNSAnalysis.records analysis rt.key)
        = List.replicate 6 (some (.arr [])) ∧
      DNSAnalysis.summaryCounts analysis = List.replicate 6 (some (.num (.fin 0)))) ∧
    (∀ c, analysis.getProp "cdn_detection" = some c → c.truthy = false →
      HostingInfo.cdnInfo analysis = some (.obj []) ∧
      HostingInfo.cdnDetected analysis = some false ∧
      HostingInfo.cdnDetectedText analysis = some "No" ∧
      HostingInfo.cdnStatusText analysis = some "Safe") ∧
    (∀ i, analysis.getProp "ssl_info" = some i → i.truthy = false →
      SSLAnalysis.sslInfo analysis = some (.obj []) ∧
      SSLAnalysis.validityStatus analysis =
        some { status := "unknown", icon := "AlertTriangle", color := "text-yellow-400",
               bg := "bg-yellow-900/20" } ∧
      SSLAnalysis.notAfter analysis = some .undefined) := by
  refine ⟨?_, ?_, ?_⟩
  · intro d h hd
    have hdns := dnsRecords_of_missing analysis d h hd
    refine ⟨hdns, ?_, ?_⟩
    · simp [DNSAnalysis.recordTypes, DNSAnalysis.records, hdns, JSValue.getProp,
        JSValue.lookup, JSValue.or, JSValue.truthy, List.replicate]
    · simp [DNSAnalysis.summaryCounts, DNSAnalysis.recordTypes, DNSAnalysis.count,
        DNSAnalysis.records, hdns, JSValue.getProp, JSValue.lookup, JSValue.or, JSValue.truthy,
        List.replicate]
  · intro c h hc
    have hi : HostingInfo.cdnInfo analysis = some (.obj []) := by
      unfold HostingInfo.cdnInfo
      rw [h]
      simp [falsy_or c _ hc]
    have hdet : HostingInfo.cdnDetected analysis = some false := by
      unfold HostingInfo.cdnDetected
      rw [hi]
      simp [JSValue.getProp, JSValue.lookup, JSValue.truthy]
    refine ⟨hi, hdet, ?_, ?_⟩
    · unfold HostingInfo.cdnDetectedText
      rw [hdet]
      rfl
    · unfold HostingInfo.cdnStatusText
      rw [hdet]
      rfl
  · intro i h hi
    have hs : SSLAnalysis.sslInfo analysis = some (.obj []) := by
      unfold SSLAnalysis.sslInfo
      rw [h]
      simp [falsy_or i _ hi]
    refine ⟨hs, ?_, ?_⟩
    · unfold SSLAnalysis.validityStatus
      rw [hs]
      rfl
    · unfold SSLAnalysis.notAfter
      rw [hs]
      rfl

/-- C10 at the analysis that holds only a domain name: all six counts are 0,
no CDN is reported and the certificate status is unknown. -/
theorem C10_missing_defaults_witness :
    DNSAnalysis.summaryCounts (.obj [("domain", .str "example.com")])
      = List.replicate 6 (some (.num (.fin 0))) ∧
    HostingInfo.cdnDetected (.obj [("domain", .str "example.com")]) = some false ∧
    SSLAnalysis.validityStatus (.obj [("domain", .str "example.com")]) =
      some { status := "unknown", icon := "AlertTriangle", color := "text-yellow-400",
             bg := "bg-yellow-900/20" } :=
  ⟨((C10_missing_defaults (.obj [("domain", .str "example.com")])).1 .undefined
      (by simp [JSValue.getProp, JSValue.lookup]) rfl).2.2,
   ((C10_missing_defaults (.obj [("domain", .str "example.com")])).2.1 .undefined
      (by simp [JSValue.getProp, JSValue.lookup]) rfl).2.1,
   ((C10_missing_defaults (.obj [("domain", .str "example.com")])).2.2 .undefined
      (by simp [JSValue.getProp, JSValue.lookup]) rfl).2.1⟩

/-! ## C11: the history list keeps the order it is given -/

theorem rowsOf_objects (recs : List (List (String × JSValue))) :
    ∃ rs, HistoryPanel.rowsOf (recs.map JSValue.obj) = some rs ∧
      rs.length = recs.length ∧
      rs.map HistoryRow.id = recs.map (fun r => JSValue.lookup r "id") ∧
      rs.map HistoryRow.domain = recs.map (fun r => JSValue.lookup r "domain") ∧
      rs.map HistoryRow.timestamp = recs.map (fun r => JSValue.lookup r "timestamp") := by
  induction recs with
  | nil => exact ⟨[], rfl, rfl, rfl, rfl, rfl⟩
  | cons r rest ih =>
    obtain ⟨rs, h, hl, hi, hd, ht⟩ := ih
    have hr : ∃ row, HistoryPanel.rowOf (.obj r) = some row ∧
        row.id = JSValue.lookup r "id" ∧ row.domain = JSValue.lookup r "domain" ∧
        row.timestamp = JSValue.lookup r "timestamp" := ⟨_, rfl, rfl, rfl, rfl⟩
    obtain ⟨row, hrow, h1, h2, h3⟩ := hr
    refine ⟨row :: rs, ?_, ?_, ?_, ?_, ?_⟩
    · simp only [List.map_cons, HistoryPanel.rowsOf, hrow, h]
    · simp [hl]
    · simp [hi, h1]
    · simp [hd, h2]
    · simp [ht, h3]

theorem length_strictEq_zero (n : Nat) :
    (JSValue.num (.fin (n : ℚ))).strictEq (.num (.fin 0)) = decide (n = 0) := by
  cases n with
  | zero => simp [JSValue.strictEq, JSNum.ge]
  | succ k =>
    have h : ¬ ((k : ℚ) + 1 ≤ 0) := by
      have : (0 : ℚ) ≤ k := Nat.cast_nonneg k
      linarith
    simp [JSValue.strictEq, JSNum.ge, h]

/-- C11: the `history` state is the list the server returned, as returned; the
panel shows the notice for the empty list and otherwise exactly one row per
record, in the order of the list (same ids, domains and timestamps at the same
positions), so when the records arrive in timestamp-descending order the rows
are in timestamp-descending order. -/
theorem C11_history_rows_in_order (timeValue : JSValue → JSNum) (prev : JSValue)
    (recs : List (List (String × JSValue))) :
    SWHIPage.loadHistory prev (.ok (.arr (recs.map JSValue.obj))) = .arr (recs.map JSValue.obj) ∧
    (recs = [] →
      HistoryPanel.renderList (SWHIPage.loadHistory prev (.ok (.arr (recs.map JSValue.obj))))
        = some .emptyNotice) ∧
    (recs ≠ [] →
      ∃ rs,
        HistoryPanel.renderList (SWHIPage.loadHistory prev (.ok (.arr (recs.map JSValue.obj))))
          = some (.rows rs) ∧
        rs.length = recs.length ∧
        rs.map HistoryRow.id = recs.map (fun r => JSValue.lookup r "id") ∧
        rs.map HistoryRow.domain = recs.map (fun r => JSValue.lookup r "domain") ∧
        rs.map HistoryRow.timestamp = recs.map (fun r => JSValue.lookup r "timestamp") ∧
        (HistoryPanel.timestampDescending timeValue
            (recs.map (fun r => JSValue.lookup r "timestamp")) →
          HistoryPanel.timestampDescending timeValue (rs.map HistoryRow.timestamp))) := by
  refine ⟨rfl, ?_, ?_⟩
  · intro h
    subst h
    simp [SWHIPage.loadHistory, HistoryPanel.renderList, JSValue.getProp, JSValue.strictEq,
      JSNum.ge]
  · intro hne
    obtain ⟨rs, h, hl, hi, hd, ht⟩ := rowsOf_objects recs
    refine ⟨rs, ?_, hl, hi, hd, ht, ?_⟩
    · simp only [SWHIPage.loadHistory, HistoryPanel.renderList, JSValue.getProp, if_true,
        length_strictEq_zero, h]
      simp [hne]
    · intro hs
      rw [ht]
      exact hs

/-- C11 at a history of two records with time values 2000 and 1000: two rows,
in that order, latest first. -/
theorem C11_history_rows_in_order_witness :
    ∃ rs,
      HistoryPanel.renderList
        (SWHIPage.loadHistory (.arr [])
          (.ok (.arr ([[("id", .num (.fin 2)), ("timestamp", .num (.fin 2000))],
                       [("id", .num (.fin 1)), ("timestamp", .num (.fin 1000))]].map JSValue.obj))))
        = some (.rows rs) ∧
      rs.length = 2 ∧
      HistoryPanel.timestampDescending (fun v => (v.toNumber).getD .nan)
        (rs.map HistoryRow.timestamp) := by
  obtain ⟨rs, h, hl, _, _, _, hs⟩ :=
    (C11_history_rows_in_order (fun v => (v.toNumber).getD .nan) (.arr [])
      [[("id", .num (.fin 2)), ("timestamp", .num (.fin 2000))],
       [("id", .num (.fin 1)), ("timestamp", .num (.fin 1000))]]).2.2 (by simp)
  refine ⟨rs, h, by simpa using hl, hs ?_⟩
  simp [HistoryPanel.timestampDescending, JSValue.lookup, JSValue.toNumber, JSNum.ge]
  norm_num


/-! ## C12: validation of the registration form -/

theorem utf16Length_empty : JSValue.utf16Length "" = 0 := rfl

/-- C12: `validateForm` returns true exactly when the trimmed name is not
empty, the trimmed email is not empty, the password has length at least 6,
the password equals the confirmation and a department is chosen; a password
shorter than 6 is refused; and `handleSubmit` calls `API.authRegister` (with
the four fields of the form) exactly when `validateForm` returned true, so
never when it returned false. -/
theorem C12_validateForm_iff (formData : RegisterForm) :
    ((RegisterPage.validateForm formData).1 = true ↔
      (jsTrim formData.name ≠ "" ∧ jsTrim formData.email ≠ "" ∧
        6 ≤ JSValue.utf16Length formData.password ∧
        formData.password = formData.confirmPassword ∧ formData.department ≠ "")) ∧
    (JSValue.utf16Length formData.password < 6 → (RegisterPage.validateForm formData).1 = false) ∧
    ((RegisterPage.validateForm formData).1 = false →
      (RegisterPage.handleSubmit formData).registerCall = none ∧
      (RegisterPage.handleSubmit formData).loading = false) ∧
    ((RegisterPage.validateForm formData).1 = true →
      (RegisterPage.handleSubmit formData).registerCall =
        some { name := formData.name, email := formData.email, password := formData.password,
               department := formData.department }) := by
  have hiff : (RegisterPage.validateForm formData).1 = true ↔
      (jsTrim formData.name ≠ "" ∧ jsTrim formData.email ≠ "" ∧
        6 ≤ JSValue.utf16Length formData.password ∧
        formData.password = formData.confirmPassword ∧ formData.department ≠ "") := by
    unfold RegisterPage.validateForm
    by_cases h1 : jsTrim formData.name = ""
    · simp [h1]
    · by_cases h2 : jsTrim formData.email = ""
      · simp [h1, h2]
      · by_cases h3 : formData.password = ""
        · simp [h1, h2, h3, utf16Length_empty]
        · by_cases h4 : JSValue.utf16Length formData.password < 6
          · have h4' : ¬ (6 ≤ JSValue.utf16Length formData.password) := by omega
            simp [h1, h2, h3, h4, h4']
          · have h4' : 6 ≤ JSValue.utf16Length formData.password := by omega
            rw [if_neg h1, if_neg h2, if_neg h3, if_neg h4]
            by_cases h5 : formData.password = formData.confirmPassword
            · rw [if_neg (not_not.mpr h5)]
              by_cases h6 : formData.department = ""
              · rw [if_pos h6]
                exact ⟨fun h => absurd h (by simp), fun h => absurd h6 h.2.2.2.2⟩
              · rw [if_neg h6]
                exact ⟨fun _ => ⟨h1, h2, h4', h5, h6⟩, fun _ => rfl⟩
            · rw [if_pos h5]
              exact ⟨fun h => absurd h (by simp), fun h => absurd h.2.2.2.1 h5⟩
  refine ⟨hiff, ?_, ?_, ?_⟩
  · intro hshort
    cases hv : (RegisterPage.validateForm formData).1 with
    | false => rfl
    | true =>
      have := (hiff.mp hv).2.2.1
      omega
  · intro hf
    unfold RegisterPage.handleSubmit
    rcases hvf : RegisterPage.validateForm formData with ⟨b, msg⟩
    rw [hvf] at hf
    simp only at hf
    subst hf
    exact ⟨rfl, rfl⟩
  · intro ht
    unfold RegisterPage.handleSubmit
    rcases hvf : RegisterPage.validateForm formData with ⟨b, msg⟩
    rw [hvf] at ht
    simp only at ht
    subst ht
    rfl

/-- C12 at a form with the five-character password "12345": refused, and no
registration call; and at the same form with "123456": accepted and sent. -/
theorem C12_validateForm_iff_witness :
    (RegisterPage.handleSubmit
      { name := "Ada", email := "ada@example.com", password := "12345",
        confirmPassword := "12345", department := "IT" }).registerCall = none ∧
    (RegisterPage.handleSubmit
      { name := "Ada", email := "ada@example.com", password := "123456",
        confirmPassword := "123456", department := "IT" }).registerCall
      = some { name := "Ada", email := "ada@example.com", password := "123456",
               department := "IT" } :=
  ⟨((C12_validateForm_iff
      { name := "Ada", email := "ada@example.com", password := "12345",
        confirmPassword := "12345", department := "IT" }).2.2.1 (by decide)).1,
   (C12_validateForm_iff
      { name := "Ada", email := "ada@example.com", password := "123456",
        confirmPassword := "123456", department := "IT" }).2.2.2 (by decide)⟩

/-! ## C13: only a validated domain is sent -/

/-- C13: for every text of the field, with `clean` the trimmed and then
lower-cased text, `handleSubmit` calls `onAnalyze` and `setDomain` exactly when
`clean` is not empty and passes `validateDomain`, each with `clean` itself as
argument; otherwise it calls neither; and it sets `isValid` to true in the
first case and to false (the "Please enter a valid domain name" state) in the
second. -/
theorem C13_only_valid_domain_sent (toLowerCase : String → String) (inputValue : String) :
    (DomainInput.handleSubmit toLowerCase inputValue).onAnalyze =
      (if toLowerCase (jsTrim inputValue) ≠ "" ∧
          DomainInput.validateDomain (toLowerCase (jsTrim inputValue)) = true
        then some (toLowerCase (jsTrim inputValue)) else none) ∧
    (DomainInput.handleSubmit toLowerCase inputValue).setDomain =
      (DomainInput.handleSubmit toLowerCase inputValue).onAnalyze ∧
    ((DomainInput.handleSubmit toLowerCase inputValue).isValid = true ↔
      (toLowerCase (jsTrim inputValue) ≠ "" ∧
        DomainInput.validateDomain (toLowerCase (jsTrim inputValue)) = true)) ∧
    ((DomainInput.handleSubmit toLowerCase inputValue).isValid = false ↔
      (DomainInput.handleSubmit toLowerCase inputValue).onAnalyze = none) := by
  unfold DomainInput.handleSubmit
  by_cases h1 : toLowerCase (jsTrim inputValue) = ""
  · simp [h1]
  · by_cases h2 : DomainInput.validateDomain (toLowerCase (jsTrim inputValue)) = true
    · simp [h1, h2]
    · simp [h1, h2]


/-- C13 at the text "  Example.COM " (lower-casing its letters): the domain
"example.com" is sent; and at "exa mple": nothing is sent. -/
theorem C13_only_valid_domain_sent_witness :
    (DomainInput.handleSubmit (fun s => String.mk (s.toList.map Char.toLower))
      "  Example.COM ").onAnalyze = some "example.com" ∧
    (DomainInput.handleSubmit (fun s => String.mk (s.toList.map Char.toLower))
      "exa mple").onAnalyze = none := by
  refine ⟨?_, ?_⟩
  · rw [(C13_only_valid_domain_sent (fun s => String.mk (s.toList.map Char.toLower))
      "  Example.COM ").1]
    decide
  · rw [(C13_only_valid_domain_sent (fun s => String.mk (s.toList.map Char.toLower))
      "exa mple").1]
    decide


/-! ## C14: when the day count is negative -/

theorem getDaysUntilExpiry_fin (timeValue : JSValue → JSNum) (now t : ℚ) (notAfter : JSValue)
    (htruthy : notAfter.truthy = true) (ht : timeValue notAfter = .fin t) :
    SSLAnalysis.getDaysUntilExpiry timeValue now notAfter
      = .num (.fin (⌈(t - now) / 86400000⌉ : ℤ)) := by
  unfold SSLAnalysis.getDaysUntilExpiry
  simp only [htruthy, ht, JSNum.sub, JSNum.neg, JSNum.add, JSNum.divPos, JSNum.ceil]
  norm_num
  ring_nf

/-- C14 fails as stated: a certificate whose `notAfter` is one hour before
`now` has expired, yet `getDaysUntilExpiry` returns 0, which is not negative. -/
theorem C14_expired_within_a_day_counterexample :
    SSLAnalysis.getDaysUntilExpiry (fun _ => .fin 0) 3600000 (.str "1970-01-01T00:00:00.000Z")
      = .num (.fin 0) ∧
    (JSNum.fin 0).lt (.fin 0) = false ∧
    (JSNum.fin 0).lt (.fin 3600000) = true := by
  refine ⟨?_, ?_, ?_⟩
  · rw [getDaysUntilExpiry_fin (fun _ => .fin 0) 3600000 0 _ (by decide) rfl]
    have hc : ⌈((0 : ℚ) - 3600000) / 86400000⌉ = 0 := by
      rw [Int.ceil_eq_iff]
      constructor <;> norm_num
    rw [hc]
    simp
  · simp [JSNum.lt]
  · simp [JSNum.lt]

/-- C14 as amended: for every `notAfter` that parses to a time value `t` and
every current time `now`, `getDaysUntilExpiry(notAfter)` is a number, and it
is negative exactly when `notAfter` lies at least one full day (86400000 ms)
before `now`; it is 0 or positive otherwise, so also for a certificate that
expired less than a day ago. -/
theorem C14_negative_iff_expired_a_day (timeValue : JSValue → JSNum) (now t : ℚ)
    (notAfter : JSValue) (htruthy : notAfter.truthy = true)
    (ht : timeValue notAfter = .fin t) :
    ∃ d : ℤ, SSLAnalysis.getDaysUntilExpiry timeValue now notAfter = .num (.fin d) ∧
      ((JSNum.fin d).lt (.fin 0) = true ↔ t + 86400000 ≤ now) := by
  refine ⟨⌈(t - now) / 86400000⌉, getDaysUntilExpiry_fin timeValue now t notAfter htruthy ht, ?_⟩
  simp only [JSNum.lt, decide_eq_true_eq]
  have h1 : ((⌈(t - now) / 86400000⌉ : ℤ) : ℚ) < 0 ↔ ⌈(t - now) / 86400000⌉ ≤ -1 := by
    constructor
    · intro h
      have : ⌈(t - now) / 86400000⌉ < 0 := by exact_mod_cast h
      omega
    · intro h
      have : ⌈(t - now) / 86400000⌉ < 0 := by omega
      exact_mod_cast this
  rw [h1, Int.ceil_le]
  constructor
  · intro h
    have h2 : (t - now) / 86400000 ≤ -1 := by exact_mod_cast h
    rw [div_le_iff₀ (by norm_num : (0 : ℚ) < 86400000)] at h2
    linarith
  · intro h
    have h2 : (t - now) / 86400000 ≤ -1 := by
      rw [div_le_iff₀ (by norm_num : (0 : ℚ) < 86400000)]
      linarith
    exact_mod_cast h2

/-- C14 as amended, at a certificate that ran out two days before `now`: the
count is negative. -/
theorem C14_negative_iff_expired_a_day_witness :
    ∃ d : ℤ,
      SSLAnalysis.getDaysUntilExpiry (fun _ => .fin 0) 172800000 (.str "1970-01-01T00:00:00.000Z")
        = .num (.fin d) ∧
      ((JSNum.fin d).lt (.fin 0) = true ↔ (0 : ℚ) + 86400000 ≤ 172800000) :=
  C14_negative_iff_expired_a_day (fun _ => .fin 0) 172800000 0
    (.str "1970-01-01T00:00:00.000Z") (by decide) rfl


/-! ## C15: the empty-DNS overlay and the six counts -/

theorem flat_eq_nil (vs : List JSValue) :
    JSValue.flat vs = [] ↔ ∀ v ∈ vs, v = JSValue.arr [] := by
  induction vs with
  | nil => simp [JSValue.flat]
  | cons v rest ih =>
    cases v with
    | arr xs =>
      simp only [JSValue.flat, List.append_eq_nil, ih, List.mem_cons, forall_eq_or_imp,
        JSValue.arr.injEq]
    | undefined => simp [JSValue.flat]
    | null => simp [JSValue.flat]
    | bool b => simp [JSValue.flat]
    | num n => simp [JSValue.flat]
    | str s => simp [JSValue.flat]
    | obj ps => simp [JSValue.flat]

theorem lookup_cases (props : List (String × JSValue))
    (hvals : ∀ p ∈ props, p.2.isArray = true) (k : String) :
    (JSValue.lookup props k = .undefined ∧ k ∉ props.map Prod.fst) ∨
    (∃ xs, JSValue.lookup props k = .arr xs ∧ k ∈ props.map Prod.fst) := by
  induction props with
  | nil => left; simp [JSValue.lookup]
  | cons p rest ih =>
    obtain ⟨k', v⟩ := p
    have hv : v.isArray = true := hvals (k', v) (List.mem_cons_self _ _)
    have ih' := ih (fun q hq => hvals q (List.mem_cons_of_mem _ hq))
    by_cases hk : k' = k
    · right
      cases v with
      | arr xs => exact ⟨xs, by simp [JSValue.lookup, hk], by simp [hk]⟩
      | undefined => simp [JSValue.isArray] at hv
      | null => simp [JSValue.isArray] at hv
      | bool b => simp [JSValue.isArray] at hv
      | num n => simp [JSValue.isArray] at hv
      | str s => simp [JSValue.isArray] at hv
      | obj ps => simp [JSValue.isArray] at hv
    · have hk' : ¬ k = k' := fun h => hk h.symm
      rcases ih' with ⟨h1, h2⟩ | ⟨xs, h1, h2⟩
      · left
        exact ⟨by simp [JSValue.lookup, hk, h1], by simp [hk', h2]⟩
      · right
        exact ⟨xs, by simp [JSValue.lookup, hk, h1], by simp [h2]⟩

theorem count_of_object (analysis : JSValue) (props : List (String × JSValue)) (k : String)
    (hd : analysis.getProp "dns_records" = some (.obj props)) :
    (JSValue.lookup props k = .undefined →
      DNSAnalysis.count analysis k = some (.num (.fin 0))) ∧
    (∀ xs, JSValue.lookup props k = .arr xs →
      DNSAnalysis.count analysis k = some (.num (.fin (xs.length : ℚ)))) := by
  have hdns : DNSAnalysis.dnsRecords analysis = some (.obj props) := by
    unfold DNSAnalysis.dnsRecords
    rw [hd]
    rfl
  constructor
  · intro h
    unfold DNSAnalysis.count DNSAnalysis.records
    rw [hdns]
    simp [JSValue.getProp, h, JSValue.or, JSValue.truthy]
  · intro xs h
    unfold DNSAnalysis.count DNSAnalysis.records
    rw [hdns]
    simp [JSValue.getProp, h, JSValue.or, JSValue.truthy]

/-- Where the overlay and the summary do agree: for every `dns_records` object
whose keys are among the six record types and whose values are all arrays,
the "No DNS records detected" overlay is shown exactly when all six counts of
the DNS summary (A, AAAA, MX, NS, TXT, CNAME) are 0. -/
theorem overlay_iff_counts_zero_of_record_lists (analysis : JSValue) (props : List (String × JSValue))
    (hd : analysis.getProp "dns_records" = some (.obj props))
    (hkeys : ∀ p ∈ props, p.1 ∈ DNSAnalysis.recordTypes.map RecordType.key)
    (hvals : ∀ p ∈ props, p.2.isArray = true) :
    ∃ shown, DNSAnalysis.overlayShown analysis = some shown ∧
      (shown = true ↔
        DNSAnalysis.summaryCounts analysis = List.replicate 6 (some (.num (.fin 0)))) := by
  have hdns : DNSAnalysis.dnsRecords analysis = some (.obj props) := by
    unfold DNSAnalysis.dnsRecords
    rw [hd]
    rfl
  refine ⟨_, by unfold DNSAnalysis.overlayShown; rw [hdns], ?_⟩
  have hcounts : DNSAnalysis.summaryCounts analysis = List.replicate 6 (some (.num (.fin 0))) ↔
      ∀ k ∈ DNSAnalysis.recordTypes.map RecordType.key,
        DNSAnalysis.count analysis k = some (.num (.fin 0)) := by
    simp [DNSAnalysis.summaryCounts, DNSAnalysis.recordTypes, List.replicate]
  rw [hcounts, decide_eq_true_eq, List.length_eq_zero, flat_eq_nil]
  simp only [JSValue.objectValues, JSValue.ownKeys, List.mem_map, List.mem_dedup]
  constructor
  · intro h k _
    rcases lookup_cases props hvals k with ⟨h1, _⟩ | ⟨xs, h1, h2⟩
    · exact (count_of_object analysis props k hd).1 h1
    · have hnil : JSValue.lookup props k = .arr [] :=
        h _ ⟨k, by simpa using h2, rfl⟩
      rw [h1] at hnil
      have hx : xs = [] := by simpa using hnil
      have := (count_of_object analysis props k hd).2 xs h1
      simpa [hx] using this
  · rintro h v ⟨k, ⟨p, hp, hpk⟩, rfl⟩
    have hk6 : k ∈ DNSAnalysis.recordTypes.map RecordType.key := hpk ▸ hkeys p hp
    have hc := h k (List.mem_map.mp hk6)
    rcases lookup_cases props hvals k with ⟨_, h2⟩ | ⟨xs, h1, _⟩
    · exact absurd (List.mem_map.mpr ⟨p, hp, hpk⟩) h2
    · rw [(count_of_object analysis props k hd).2 xs h1] at hc
      have hx : xs = [] := by
        have : (xs.length : ℚ) = 0 := by simpa using hc
        exact List.length_eq_zero.mp (by exact_mod_cast this)
      rw [h1, hx]

/-- A key outside the six types also parts the two: with the single key
`SOA` the overlay is not shown, there being a record, although all six counts
are 0. -/
theorem overlay_hidden_by_other_key :
    DNSAnalysis.overlayShown
      (.obj [("dns_records", .obj [("SOA", .arr [.str "ns1.example.com"])])]) = some false ∧
    DNSAnalysis.summaryCounts
      (.obj [("dns_records", .obj [("SOA", .arr [.str "ns1.example.com"])])])
      = List.replicate 6 (some (.num (.fin 0))) := by
  constructor
  · simp [DNSAnalysis.overlayShown, DNSAnalysis.dnsRecords, JSValue.getProp, JSValue.lookup,
      JSValue.or, JSValue.truthy, JSValue.objectValues, JSValue.ownKeys, JSValue.flat]
  · simp [DNSAnalysis.summaryCounts, DNSAnalysis.recordTypes, DNSAnalysis.count,
      DNSAnalysis.records, DNSAnalysis.dnsRecords, JSValue.getProp, JSValue.lookup, JSValue.or,
      JSValue.truthy, List.replicate]

/-- The agreement at the mapping with an empty A list and one NS record: the
overlay is not shown, and the six counts are not all 0. -/
theorem overlay_iff_counts_zero_example :
    ∃ shown,
      DNSAnalysis.overlayShown
        (.obj [("dns_records", .obj [("A", .arr []), ("NS", .arr [.str "ns1.example.com"])])])
        = some shown ∧
      (shown = true ↔
        DNSAnalysis.summaryCounts
          (.obj [("dns_records", .obj [("A", .arr []), ("NS", .arr [.str "ns1.example.com"])])])
          = List.replicate 6 (some (.num (.fin 0)))) :=
  overlay_iff_counts_zero_of_record_lists _ [("A", .arr []), ("NS", .arr [.str "ns1.example.com"])]
    (by simp [JSValue.getProp, JSValue.lookup])
    (by simp [DNSAnalysis.recordTypes])
    (by simp [JSValue.isArray])


/-- C15, at the analysis `{"dns_records": {"A": null}}`: all six counts of the
DNS summary are 0, the summary reading `null` as the empty list through
`|| []`, yet the overlay is not shown, the overlay test counting the `null`
itself as one entry of `Object.values(dnsRecords).flat()`. -/
theorem C15_null_records_hide_overlay :
    DNSAnalysis.overlayShown (.obj [("dns_records", .obj [("A", .null)])]) = some false ∧
    DNSAnalysis.summaryCounts (.obj [("dns_records", .obj [("A", .null)])])
      = List.replicate 6 (some (.num (.fin 0))) ∧
    JSValue.flat (JSValue.objectValues (.obj [("A", .null)])) = [.null] ∧
    DNSAnalysis.records (.obj [("dns_records", .obj [("A", .null)])]) "A" = some (.arr []) := by
  refine ⟨?_, ?_, ?_, ?_⟩
  · simp [DNSAnalysis.overlayShown, DNSAnalysis.dnsRecords, JSValue.getProp, JSValue.lookup,
      JSValue.or, JSValue.truthy, JSValue.objectValues, JSValue.ownKeys, JSValue.flat]
  · simp [DNSAnalysis.summaryCounts, DNSAnalysis.recordTypes, DNSAnalysis.count,
      DNSAnalysis.records, DNSAnalysis.dnsRecords, JSValue.getProp, JSValue.lookup, JSValue.or,
      JSValue.truthy, List.replicate]
  · simp [JSValue.objectValues, JSValue.ownKeys, JSValue.lookup, JSValue.flat]
  · simp [DNSAnalysis.records, DNSAnalysis.dnsRecords, JSValue.getProp, JSValue.lookup,
      JSValue.or, JSValue.truthy]

/-! ## C16: the `options` of a loaded question -/

theorem lookup_setProp (props : List (String × JSValue)) (key : String) (v : JSValue) :
    JSValue.lookup (JSValue.setProp props key v) key = v := by
  induction props with
  | nil => simp [JSValue.setProp, JSValue.lookup]
  | cons p rest ih =>
    obtain ⟨k, w⟩ := p
    by_cases hk : k = key
    · simp [JSValue.setProp, JSValue.lookup, hk]
    · simp [JSValue.setProp, JSValue.lookup, hk, ih]

/-- Where the normalisation does give an array: a question object whose
`options` is an array is stored with that array, and one whose `options` is
missing, `null` or otherwise falsy is stored with the empty array. -/
theorem normalizeQuestion_array_or_falsy (props : List (String × JSValue))
    (h : (JSValue.lookup props "options").isArray = true ∨
      (JSValue.lookup props "options").truthy = false) :
    ∃ stored, QuizPage.normalizeQuestion (.obj props) = some (.obj stored) ∧
      (JSValue.lookup stored "options").isArray = true := by
  refine ⟨_, rfl, ?_⟩
  rw [JSValue.spread, lookup_setProp]
  rcases h with h | h
  · rw [if_pos h]
    exact h
  · by_cases ha : (JSValue.lookup props "options").isArray = true
    · rw [if_pos ha]
      exact ha
    · rw [if_neg ha, JSValue.or, if_neg (by simp [h])]
      rfl

/-- C16, at the response `[{"question": "Q1", "options": "A,B,C"}]`: the load
succeeds with one stored question, and that question's `options` is still the
string "A,B,C", which is not an array. -/
theorem C16_string_options_kept :
    QuizPage.fetchQuestions
      (.ok (.arr [.obj [("question", .str "Q1"), ("options", .str "A,B,C")]]))
      = { questions := [.obj [("question", .str "Q1"), ("options", .str "A,B,C")]],
          failed := false } ∧
    JSValue.lookup [("question", .str "Q1"), ("options", .str "A,B,C")] "options"
      = .str "A,B,C" ∧
    (JSValue.str "A,B,C").isArray = false := by
  refine ⟨?_, ?_, rfl⟩
  · simp [QuizPage.fetchQuestions, QuizPage.normalizeAll, QuizPage.normalizeQuestion,
      JSValue.getProp, JSValue.lookup, JSValue.spread, JSValue.setProp, JSValue.isArray,
      JSValue.or, JSValue.truthy]
  · simp [JSValue.lookup]


/-! ## C17: client-side grading -/

theorem correctAt_succ (answers : List (String × JSValue)) (k : Nat)
    (q : List (String × JSValue)) (rest : List (List (String × JSValue))) (i : Nat) :
    AdaptiveQuiz.correctAt answers k (q :: rest) (i + 1)
      = AdaptiveQuiz.correctAt answers (k + 1) rest i := by
  simp only [AdaptiveQuiz.correctAt, List.getElem?_cons_succ]
  have : k + (i + 1) = k + 1 + i := by omega
  rw [this]

theorem gradeFrom_objects (answers : List (String × JSValue))
    (qs : List (List (String × JSValue))) :
    ∀ k c, AdaptiveQuiz.gradeFrom answers k (qs.map JSValue.obj) c
      = some (c + ((List.range qs.length).filter (AdaptiveQuiz.correctAt answers k qs)).length) := by
  induction qs with
  | nil => intro k c; simp [AdaptiveQuiz.gradeFrom]
  | cons q rest ih =>
    intro k c
    have hrange : (List.range (q :: rest).length).filter (AdaptiveQuiz.correctAt answers k (q :: rest))
        = (if AdaptiveQuiz.correctAt answers k (q :: rest) 0 then [0] else [])
          ++ ((List.range rest.length).filter (AdaptiveQuiz.correctAt answers (k + 1) rest)).map
              Nat.succ := by
      rw [List.length_cons, List.range_succ_eq_map, List.filter_cons, List.filter_map]
      have hfun : (AdaptiveQuiz.correctAt answers k (q :: rest) ∘ Nat.succ)
          = AdaptiveQuiz.correctAt answers (k + 1) rest := by
        funext i
        exact correctAt_succ answers k q rest i
      rw [hfun]
      split <;> simp
    rw [hrange]
    have h0 : AdaptiveQuiz.correctAt answers k (q :: rest) 0
        = (!(JSValue.lookup answers (toString k)).isNullish &&
            (JSValue.lookup answers (toString k)).strictEq
              (JSValue.lookup q "correct_choice_id")) := by
      simp [AdaptiveQuiz.correctAt]
    rw [h0]
    simp only [List.map_cons, AdaptiveQuiz.gradeFrom, JSValue.getProp]
    by_cases hn : (JSValue.lookup answers (toString k)).isNullish = true
    · simp [hn, ih]
    · by_cases he : (JSValue.lookup answers (toString k)).strictEq
          (JSValue.lookup q "correct_choice_id") = true
      · simp [hn, he, ih]
        omega
      · simp [hn, he, ih]

/-- C17: for every list of question objects and every answers map, `submit`
stores `total = quiz.length` and `correct` = the number of indices `i` whose
answer is present (neither `null` nor `undefined`) and strictly equal to
`quiz[i].correct_choice_id`; hence `0 ≤ correct ≤ total`. -/
theorem C17_submit_counts (qs : List (List (String × JSValue)))
    (answers : List (String × JSValue)) :
    AdaptiveQuiz.submit (qs.map JSValue.obj) answers
      = some { correct := ((List.range qs.length).filter
                 (AdaptiveQuiz.correctAt answers 0 qs)).length,
               total := qs.length } ∧
    ((List.range qs.length).filter (AdaptiveQuiz.correctAt answers 0 qs)).length ≤ qs.length := by
  constructor
  · simp [AdaptiveQuiz.submit, gradeFrom_objects]
  · calc ((List.range qs.length).filter (AdaptiveQuiz.correctAt answers 0 qs)).length
        ≤ (List.range qs.length).length := List.length_filter_le _ _
      _ = qs.length := List.length_range _


/-! ## C18: the trend series has one entry per label -/

theorem padLoop_eq (n : Nat) (a : JSNum) :
    ∀ (k : Nat) (data : List JSNum), n - data.length = k →
      AdminDashboard.padLoop n a data = data ++ List.replicate (n - data.length) a := by
  intro k
  induction k with
  | zero =>
    intro data hk
    rw [AdminDashboard.padLoop]
    have hlt : ¬ data.length < n := by omega
    simp [hlt, hk]
  | succ k ih =>
    intro data hk
    rw [AdminDashboard.padLoop]
    have hlt : data.length < n := by omega
    have hlen : n - (data ++ [a]).length = k := by
      simp only [List.length_append, List.length_singleton]
      omega
    rw [if_pos hlt, ih (data ++ [a]) hlen, hlen, hk, List.replicate_succ]
    simp

theorem padLoop_length (n : Nat) (a : JSNum) (data : List JSNum) (h : data.length ≤ n) :
    (AdminDashboard.padLoop n a data).length = n := by
  rw [padLoop_eq n a _ data rfl]
  simp only [List.length_append, List.length_replicate]
  omega

theorem trendDataRaw_length (coerce : JSValue → JSNum) (dashboardData : JSValue) :
    (AdminDashboard.trendDataRaw coerce dashboardData).length
      = (AdminDashboard.trendLabels dashboardData).length := by
  unfold AdminDashboard.trendDataRaw
  split
  · split
    · apply padLoop_length
      simp [List.length_take]
    · apply padLoop_length
      simp [List.length_take]
  · apply padLoop_length
    simp [List.length_take]

/-- C18: for every `dashboardData` (and whatever `Number` makes of strings and
objects), the series `_trendData` has exactly as many entries as
`_trendLabels`: the weekly scores are cut or padded to that number, and so is
the default series when `weekly_scores` is empty or missing; there is always
at least one label. -/
theorem C18_trend_length (coerce : JSValue → JSNum) (dashboardData : JSValue) :
    (AdminDashboard.trendData coerce dashboardData).length
      = (AdminDashboard.trendLabels dashboardData).length ∧
    0 < (AdminDashboard.trendLabels dashboardData).length := by
  constructor
  · simp [AdminDashboard.trendData, trendDataRaw_length]
  · unfold AdminDashboard.trendLabels
    split
    · split
      · assumption
      · simp [AdminDashboard.defaultLabels]
    · simp [AdminDashboard.defaultLabels]

/-! ## C19: the trend values are clamped -/

theorem clamp_inChartRange (n : JSNum) :
    AdminDashboard.inChartRange (AdminDashboard.clamp n) = true := by
  cases n with
  | nan => rfl
  | posInf => rfl
  | negInf => rfl
  | fin q =>
    by_cases h0 : q = 0
    · subst h0
      simp [AdminDashboard.clamp, AdminDashboard.numOr, JSNum.truthy, JSNum.lt, JSNum.gt,
        AdminDashboard.inChartRange]
      norm_num
    · by_cases hneg : q < 0
      · simp [AdminDashboard.clamp, AdminDashboard.numOr, JSNum.truthy, JSNum.lt, JSNum.gt,
          AdminDashboard.inChartRange, h0, hneg]
      · by_cases hbig : (100 : ℚ) < q
        · simp [AdminDashboard.clamp, AdminDashboard.numOr, JSNum.truthy, JSNum.lt, JSNum.gt,
            AdminDashboard.inChartRange, h0, hneg, hbig]
        · have h1 : 0 ≤ q := not_lt.mp hneg
          have h2 : q ≤ 100 := not_lt.mp hbig
          simp [AdminDashboard.clamp, AdminDashboard.numOr, JSNum.truthy, JSNum.lt, JSNum.gt,
            AdminDashboard.inChartRange, h0, hneg, hbig, h1, h2]

/-- C19: for every `dashboardData` (and whatever `Number` makes of strings and
objects), every entry of the final `_trendData` is a finite number between 0
and 100; an entry that `Number` turns into NaN, such as a missing one, becomes
0, anything below 0 becomes 0 and anything above 100 becomes 100. -/
theorem C19_trend_clamped (coerce : JSValue → JSNum) (dashboardData : JSValue) :
    (AdminDashboard.trendData coerce dashboardData).all AdminDashboard.inChartRange = true ∧
    AdminDashboard.clamp .nan = .fin 0 ∧
    AdminDashboard.clamp (JSValue.number coerce .undefined) = .fin 0 ∧
    AdminDashboard.clamp .negInf = .fin 0 ∧
    AdminDashboard.clamp .posInf = .fin 100 ∧
    AdminDashboard.clamp (.fin (-5)) = .fin 0 ∧
    AdminDashboard.clamp (.fin 250) = .fin 100 := by
  refine ⟨?_, ?_, ?_, ?_, ?_, ?_, ?_⟩
  · simp only [AdminDashboard.trendData, List.all_map, List.all_eq_true]
    intro n _
    exact clamp_inChartRange n
  all_goals
    simp [AdminDashboard.clamp, AdminDashboard.numOr, JSNum.truthy, JSNum.lt, JSNum.gt,
      JSValue.number]
  all_goals norm_num


/-! ## C20: the last value of the default series -/

theorem clamp_of_inRange (q : ℚ) (h0 : 0 ≤ q) (h1 : q ≤ 100) :
    AdminDashboard.clamp (.fin q) = .fin q := by
  by_cases hz : q = 0
  · subst hz
    simp [AdminDashboard.clamp, AdminDashboard.numOr, JSNum.truthy, JSNum.lt, JSNum.gt]
  · have hneg : ¬ q < 0 := not_lt.mpr h0
    have hbig : ¬ (100 : ℚ) < q := not_lt.mpr h1
    simp [AdminDashboard.clamp, AdminDashboard.numOr, JSNum.truthy, JSNum.lt, JSNum.gt, hz,
      hneg, hbig]

theorem getLast_append_replicate (xs : List JSNum) (b : JSNum) (k : Nat) :
    (xs ++ [b] ++ List.replicate k b).getLast? = some b := by
  have h : xs ++ [b] ++ List.replicate k b = (xs ++ List.replicate k b) ++ [b] := by
    rw [List.append_assoc, List.append_assoc]
    congr 1
    rw [List.singleton_append, ← List.replicate_succ, List.replicate_succ']
  rw [h, List.getLast?_append]
  simp

/-- Where the default series does end in the average: when `weekly_scores` is
missing or empty, there are at least four labels (the four default labels
included) and the average is a number between 0 and 100, the last entry of
`_trendData` is the average. -/
theorem trendData_last_of_four_labels (coerce : JSValue → JSNum) (dashboardData : JSValue)
    (q : ℚ) (havg : AdminDashboard.avg coerce dashboardData = .fin q)
    (h0 : 0 ≤ q) (h1 : q ≤ 100)
    (hw : ∀ items, AdminDashboard.weeklyRaw dashboardData = .arr items → items = [])
    (hl : 4 ≤ (AdminDashboard.trendLabels dashboardData).length) :
    (AdminDashboard.trendData coerce dashboardData).getLast? = some (.fin q) := by
  have hraw : AdminDashboard.trendDataRaw coerce dashboardData
      = AdminDashboard.padLoop (AdminDashboard.trendLabels dashboardData).length (.fin q)
          ((AdminDashboard.defaultSeries (.fin q)).take
            (AdminDashboard.trendLabels dashboardData).length) := by
    unfold AdminDashboard.trendDataRaw
    rw [havg]
    split
    · rename_i items hitems
      have := hw items hitems
      subst this
      simp
    · rfl
  have htake : (AdminDashboard.defaultSeries (.fin q)).take
      (AdminDashboard.trendLabels dashboardData).length = AdminDashboard.defaultSeries (.fin q) :=
    List.take_of_length_le (by simpa [AdminDashboard.defaultSeries] using hl)
  rw [AdminDashboard.trendData, hraw, htake, padLoop_eq _ _ _ _ rfl, List.map_append,
    List.map_replicate, clamp_of_inRange q h0 h1]
  have hd : (AdminDashboard.defaultSeries (.fin q)).map AdminDashboard.clamp
      = [AdminDashboard.clamp (AdminDashboard.numOr ((JSNum.fin q).sub (.fin 15)) (.fin 50)),
         AdminDashboard.clamp (AdminDashboard.numOr ((JSNum.fin q).sub (.fin 5)) (.fin 60)),
         AdminDashboard.clamp (AdminDashboard.numOr ((JSNum.fin q).add (.fin 3)) (.fin 70))]
        ++ [.fin q] := by
    simp [AdminDashboard.defaultSeries, clamp_of_inRange q h0 h1]
  rw [hd]
  exact getLast_append_replicate _ _ _

/-- C20, at the dashboard data with `average_score` 60, no `weekly_scores` and
the two labels "Week 1" and "Week 2": the series is `[45, 55]`, so its last
entry is 55 and not the average 60, the default series having been cut before
its final value. -/
theorem C20_short_labels_lose_average (coerce : JSValue → JSNum) :
    AdminDashboard.avg coerce
      (.obj [("quiz_stats", .obj [("average_score", .num (.fin 60)),
        ("trend_labels", .arr [.str "Week 1", .str "Week 2"])])]) = .fin 60 ∧
    AdminDashboard.trendData coerce
      (.obj [("quiz_stats", .obj [("average_score", .num (.fin 60)),
        ("trend_labels", .arr [.str "Week 1", .str "Week 2"])])]) = [.fin 45, .fin 55] ∧
    ([JSNum.fin 45, JSNum.fin 55]).getLast? = some (.fin 55) ∧
    JSNum.fin 55 ≠ JSNum.fin 60 := by
  have hlabels : AdminDashboard.trendLabels
      (.obj [("quiz_stats", .obj [("average_score", .num (.fin 60)),
        ("trend_labels", .arr [.str "Week 1", .str "Week 2"])])])
      = [.str "Week 1", .str "Week 2"] := by
    simp [AdminDashboard.trendLabels, AdminDashboard.quizStat, JSValue.optProp, JSValue.getProp,
      JSValue.lookup]
  have havg : AdminDashboard.avg coerce
      (.obj [("quiz_stats", .obj [("average_score", .num (.fin 60)),
        ("trend_labels", .arr [.str "Week 1", .str "Week 2"])])]) = .fin 60 := by
    simp [AdminDashboard.avg, AdminDashboard.quizStat, JSValue.optProp, JSValue.getProp,
      JSValue.lookup, JSValue.coalesce, JSValue.isNullish, JSValue.number]
  refine ⟨havg, ?_, rfl, ?_⟩
  · have hweekly : AdminDashboard.weeklyRaw
        (.obj [("quiz_stats", .obj [("average_score", .num (.fin 60)),
          ("trend_labels", .arr [.str "Week 1", .str "Week 2"])])]) = .undefined := by
      simp [AdminDashboard.weeklyRaw, AdminDashboard.quizStat, JSValue.optProp, JSValue.getProp,
        JSValue.lookup]
    unfold AdminDashboard.trendData AdminDashboard.trendDataRaw
    rw [hweekly, hlabels, havg]
    simp only [List.length_cons, List.length_nil, padLoop_eq _ _ _ _ rfl]
    simp [AdminDashboard.defaultSeries, AdminDashboard.numOr, JSNum.sub, JSNum.add, JSNum.neg,
      JSNum.truthy, AdminDashboard.clamp, JSNum.lt, JSNum.gt]
    norm_num
  · intro h
    injection h with h'
    norm_num at h'


/-! ## C21: the feed keeps the latest 20 threats -/

theorem randomThreat_of_unit_range (now random : ℚ) (h0 : 0 ≤ random) (h1 : random < 1) :
    ∃ t, t ∈ ThreatIntelligence.newThreats now ∧
      ThreatIntelligence.randomThreat now random = some t := by
  have hlen : ((ThreatIntelligence.newThreats now).length : ℚ) = 2 := by
    simp [ThreatIntelligence.newThreats]
  unfold ThreatIntelligence.randomThreat
  rw [hlen]
  by_cases hhalf : random * 2 < 1
  · have hf : ⌊random * 2⌋ = 0 := by
      rw [Int.floor_eq_iff]
      constructor
      · simp only [Int.cast_zero]
        linarith
      · simpa using hhalf
    rw [hf]
    exact ⟨_, List.mem_cons_self _ _, rfl⟩
  · have hf : ⌊random * 2⌋ = 1 := by
      rw [Int.floor_eq_iff]
      constructor
      · simp only [Int.cast_one]
        linarith
      · simp only [Int.cast_one]
        linarith
    rw [hf]
    exact ⟨_, List.mem_cons_of_mem _ (List.mem_cons_self _ _), rfl⟩

/-- C21: after every `addNewThreat` step the list has length
`min(previous length + 1, 20)`, so never more than 20; the newly added threat
is at index 0; the entries after it are the first 19 of the previous list, in
their previous order; and for a value of `Math.random()` in its range
`0 ≤ r < 1` the added threat is one of the two of `newThreats`. -/
theorem C21_feed_keeps_latest_twenty (now random : ℚ) (prev : List (Option Threat)) :
    (ThreatIntelligence.addNewThreat now random prev).length = min (prev.length + 1) 20 ∧
    (ThreatIntelligence.addNewThreat now random prev).length ≤ 20 ∧
    (ThreatIntelligence.addNewThreat now random prev)[0]?
      = some (ThreatIntelligence.randomThreat now random) ∧
    ThreatIntelligence.addNewThreat now random prev
      = ThreatIntelligence.randomThreat now random :: prev.take 19 ∧
    (ThreatIntelligence.addNewThreat now random prev).tail <+: prev ∧
    (0 ≤ random → random < 1 →
      ∃ t, t ∈ ThreatIntelligence.newThreats now ∧
        (ThreatIntelligence.addNewThreat now random prev)[0]? = some (some t)) := by
  have heq : ThreatIntelligence.addNewThreat now random prev
      = ThreatIntelligence.randomThreat now random :: prev.take 19 := by
    simp [ThreatIntelligence.addNewThreat, List.take_succ_cons]
  refine ⟨?_, ?_, ?_, heq, ?_, ?_⟩
  · simp only [ThreatIntelligence.addNewThreat, List.length_take, List.length_cons]
    omega
  · simp only [ThreatIntelligence.addNewThreat, List.length_take, List.length_cons]
    omega
  · rw [heq]
    simp
  · rw [heq]
    exact List.take_prefix 19 prev
  · intro h0 h1
    obtain ⟨t, ht, hr⟩ := randomThreat_of_unit_range now random h0 h1
    refine ⟨t, ht, ?_⟩
    rw [heq, hr]
    simp

/-- C21 at a feed that already holds 20 entries and the random value 0.7: the
new list again has 20 entries and starts with the second of `newThreats`. -/
theorem C21_feed_keeps_latest_twenty_witness :
    (ThreatIntelligence.addNewThreat 1000 (7 / 10) (List.replicate 20 none)).length = 20 ∧
    ∃ t, t ∈ ThreatIntelligence.newThreats 1000 ∧
      (ThreatIntelligence.addNewThreat 1000 (7 / 10) (List.replicate 20 none))[0]?
        = some (some t) :=
  ⟨by
      rw [(C21_feed_keeps_latest_twenty 1000 (7 / 10) (List.replicate 20 none)).1]
      simp,
   (C21_feed_keeps_latest_twenty 1000 (7 / 10) (List.replicate 20 none)).2.2.2.2.2
      (by norm_num) (by norm_num)⟩

/-! ## C22: the copies of the thresholds agree -/

/-- C22: for every numeric score (NaN and the infinities included),
`getRiskLevel` of `SWHIPage.jsx`, of `App.js` and of `PDFExport.js` give the
same level; the colour of `getRiskLevel` is the one given by
`SuspiciousScore.getScoreColor` and by `HistoryPanel.getRiskColor`; and the
background of `getRiskLevel` is the one given by `SuspiciousScore.getScoreBg`. -/
theorem C22_threshold_copies_agree (s : JSNum) :
    App.getRiskLevel s = SWHIPage.getRiskLevel s ∧
    (PDFExport.getRiskLevel s).level = (SWHIPage.getRiskLevel s).level ∧
    (App.getRiskLevel s).level = (PDFExport.getRiskLevel s).level ∧
    (SWHIPage.getRiskLevel s).color = SuspiciousScore.getScoreColor s ∧
    (SWHIPage.getRiskLevel s).color = HistoryPanel.getRiskColor s ∧
    (SWHIPage.getRiskLevel s).bg = SuspiciousScore.getScoreBg s := by
  unfold App.getRiskLevel SWHIPage.getRiskLevel PDFExport.getRiskLevel
    SuspiciousScore.getScoreColor HistoryPanel.getRiskColor SuspiciousScore.getScoreBg
  by_cases h80 : s.ge (.fin 80) = true
  · simp [h80]
  · by_cases h50 : s.ge (.fin 50) = true
    · simp [h80, h50]
    · by_cases h20 : s.ge (.fin 20) = true
      · simp [h80, h50, h20]
      · simp [h80, h50, h20]


end Vois
